import Mathlib

/-!
Verification of the dice-physics core of the `inconnu` repository.

The repository contains two parallel physics variants:

* the "engine" variant: `js/physics/rigid-body.js` (RigidBody),
  `js/physics/integrator.js`, `js/physics/collision.js`,
  `js/physics/constants.js`, the `PhysicsEngine` orchestrator, and
  `js/d6-dice.js`;
* the "dice" variant: `js/physics.js` (PhysicsDie) and `js/collision.js`
  (DiceCollisionSystem).

Both are embedded below over the real numbers: JavaScript numbers are
idealised as `ℝ` (the standard shallow embedding for numerical code; the
spec itself states round-trip properties "exactly over the reals").
`Math.sqrt`, `Math.sin`, `Math.cos`, `Math.acos` become `Real.sqrt`,
`Real.sin`, `Real.cos`, `Real.arccos`.  JavaScript `Infinity` sentinels
(`let lowestY = Infinity`, `let bestDot = -Infinity`) are embedded as
`Option ℝ` accumulators (`none` = the sentinel), which reproduces the
source comparisons exactly for finite inputs.

Every definition is translated line-by-line from the corresponding source
function; comments name the source file and function.
-/

noncomputable section

/-- 3-component vector, the shape of the `{x, y, z}` records and
`THREE.Vector3` values used throughout the source. -/
@[ext]
structure V3 where
  x : ℝ
  y : ℝ
  z : ℝ

namespace V3

def add (a b : V3) : V3 := ⟨a.x + b.x, a.y + b.y, a.z + b.z⟩

def sub (a b : V3) : V3 := ⟨a.x - b.x, a.y - b.y, a.z - b.z⟩

def smul (c : ℝ) (a : V3) : V3 := ⟨c * a.x, c * a.y, c * a.z⟩

def dot (a b : V3) : ℝ := a.x * b.x + a.y * b.y + a.z * b.z

/-- `THREE.Vector3.crossVectors` / the hand-written cross products of the
source. -/
def cross (a b : V3) : V3 :=
  ⟨a.y * b.z - a.z * b.y, a.z * b.x - a.x * b.z, a.x * b.y - a.y * b.x⟩

def lengthSq (a : V3) : ℝ := a.x * a.x + a.y * a.y + a.z * a.z

/-- `.length()`: `Math.sqrt` of the sum of squares. -/
noncomputable def length (a : V3) : ℝ := Real.sqrt a.lengthSq

def zero : V3 := ⟨0, 0, 0⟩

end V3

/-- Quaternion `{w, x, y, z}`, the shape of the quaternion records and
`THREE.Quaternion` values used throughout the source. -/
@[ext]
structure Quat where
  w : ℝ
  x : ℝ
  y : ℝ
  z : ℝ

namespace Quat

def identity : Quat := ⟨1, 0, 0, 0⟩

def normSq (q : Quat) : ℝ := q.w * q.w + q.x * q.x + q.y * q.y + q.z * q.z

end Quat

/-- Rotation of a vector by a quaternion, computing `q * v * conj q` by the
explicit component formulas that appear verbatim in
`rigid-body.js` (`localToWorldDirection`) and `d6-dice.js`
(`rotateByQuaternion`).  `THREE.Vector3.applyQuaternion` computes the same
rotation for the unit quaternions that every die maintains
(orientations are renormalised after every change). -/
def rotateByQuaternion (v : V3) (q : Quat) : V3 :=
  let qv : Quat :=
    { w := -(q.x * v.x + q.y * v.y + q.z * v.z)
      x := q.w * v.x + q.y * v.z - q.z * v.y
      y := q.w * v.y + q.z * v.x - q.x * v.z
      z := q.w * v.z + q.x * v.y - q.y * v.x }
  { x := qv.w * (-q.x) + qv.x * q.w + qv.y * (-q.z) - qv.z * (-q.y)
    y := qv.w * (-q.y) + qv.y * q.w + qv.z * (-q.x) - qv.x * (-q.z)
    z := qv.w * (-q.z) + qv.z * q.w + qv.x * (-q.y) - qv.y * (-q.x) }

namespace Engine

namespace PHYSICS

/-- `js/physics/constants.js`, `PHYSICS` object. -/
def GRAVITY : ℝ := 981/100

def FIXED_TIMESTEP : ℝ := 1/240

def MAX_ACCUMULATOR : ℝ := 1/10

def RESTITUTION : ℝ := 35/100

def KINETIC_FRICTION : ℝ := 3/10

def LINEAR_DRAG : ℝ := 1/100

def ANGULAR_DRAG : ℝ := 2/100

def CONTACT_DAMPING : ℝ := 85/100

def SETTLING_TIME : ℝ := 3/10

def VELOCITY_THRESHOLD : ℝ := 5/100

def ANGULAR_THRESHOLD : ℝ := 1/10

def POSITION_CORRECTION : ℝ := 2/10

def PENETRATION_SLOP : ℝ := 1/1000

def MIN_X : ℝ := -4

def MAX_X : ℝ := 4

def MIN_Z : ℝ := -4

def MAX_Z : ℝ := 4

def GROUND_Y : ℝ := 0

def WALL_RESTITUTION : ℝ := 1/2

def DICE_RESTITUTION : ℝ := 3/10

def DICE_VELOCITY_THRESHOLD : ℝ := 5/100

end PHYSICS

namespace D6

/-- `js/physics/constants.js`, `D6` object. -/
def SIZE : ℝ := 1

def MASS : ℝ := 1

def HALF_SIZE : ℝ := SIZE / 2

def INERTIA : ℝ := (1/6) * MASS * SIZE * SIZE

def REST_HEIGHT : ℝ := HALF_SIZE

def COLLISION_RADIUS : ℝ := HALF_SIZE * Real.sqrt 3

end D6

/-- `js/physics/constants.js`, `D6_FACE_NORMALS`: local-space face normals
of the d6, index = face value - 1. -/
def D6_FACE_NORMALS : List V3 :=
  [⟨0, 0, 1⟩, ⟨0, 1, 0⟩, ⟨1, 0, 0⟩, ⟨-1, 0, 0⟩, ⟨0, -1, 0⟩, ⟨0, 0, -1⟩]

/-- `js/physics/constants.js`, `D6_VERTICES`: the 8 cube corners in local
space. -/
def D6_VERTICES : List V3 :=
  let h := D6.HALF_SIZE
  [⟨-h, -h, -h⟩, ⟨h, -h, -h⟩, ⟨-h, h, -h⟩, ⟨h, h, -h⟩,
   ⟨-h, -h, h⟩, ⟨h, -h, h⟩, ⟨-h, h, h⟩, ⟨h, h, h⟩]

/-- `js/physics/rigid-body.js`, class `RigidBody`: per-body kinematic and
settling state. -/
structure RigidBody where
  position : V3
  quaternion : Quat
  velocity : V3
  angularVelocity : V3
  mass : ℝ
  inverseMass : ℝ
  inertia : ℝ
  inverseInertia : ℝ
  force : V3
  torque : V3
  localVertices : List V3
  settleTimer : ℝ
  isSettled : Bool
  collisionRadius : ℝ
  halfSize : ℝ

namespace RigidBody

/-- `RigidBody.localToWorld`: quaternion rotation (`q * v * conj q`, written
out component by component exactly as in the source) followed by the
position offset. -/
def localToWorld (b : RigidBody) (v : V3) : V3 :=
  let q := b.quaternion
  let qv : Quat :=
    { w := -(q.x * v.x + q.y * v.y + q.z * v.z)
      x := q.w * v.x + q.y * v.z - q.z * v.y
      y := q.w * v.y + q.z * v.x - q.x * v.z
      z := q.w * v.z + q.x * v.y - q.y * v.x }
  let rotated : V3 :=
    { x := qv.w * (-q.x) + qv.x * q.w + qv.y * (-q.z) - qv.z * (-q.y)
      y := qv.w * (-q.y) + qv.y * q.w + qv.z * (-q.x) - qv.x * (-q.z)
      z := qv.w * (-q.z) + qv.z * q.w + qv.x * (-q.y) - qv.y * (-q.x) }
  { x := rotated.x + b.position.x
    y := rotated.y + b.position.y
    z := rotated.z + b.position.z }

/-- `RigidBody.worldToLocal`: translate to the body origin, then rotate by
the conjugate quaternion (`conj q * v * q`, component formulas as in the
source). -/
def worldToLocal (b : RigidBody) (p : V3) : V3 :=
  let translated : V3 :=
    ⟨p.x - b.position.x, p.y - b.position.y, p.z - b.position.z⟩
  let q := b.quaternion
  let qc : Quat := ⟨q.w, -q.x, -q.y, -q.z⟩
  let v := translated
  let qv : Quat :=
    { w := -(qc.x * v.x + qc.y * v.y + qc.z * v.z)
      x := qc.w * v.x + qc.y * v.z - qc.z * v.y
      y := qc.w * v.y + qc.z * v.x - qc.x * v.z
      z := qc.w * v.z + qc.x * v.y - qc.y * v.x }
  { x := qv.w * (-q.x) + qv.x * q.w + qv.y * (-q.z) - qv.z * (-q.y)
    y := qv.w * (-q.y) + qv.y * q.w + qv.z * (-q.x) - qv.x * (-q.z)
    z := qv.w * (-q.z) + qv.z * q.w + qv.x * (-q.y) - qv.y * (-q.x) }

/-- `RigidBody.applyForce`: accumulate into the force accumulator. -/
def applyForce (b : RigidBody) (fx fy fz : ℝ) : RigidBody :=
  { b with force := ⟨b.force.x + fx, b.force.y + fy, b.force.z + fz⟩ }

/-- `RigidBody.applyTorque`: accumulate into the torque accumulator. -/
def applyTorque (b : RigidBody) (tx ty tz : ℝ) : RigidBody :=
  { b with torque := ⟨b.torque.x + tx, b.torque.y + ty, b.torque.z + tz⟩ }

/-- `RigidBody.applyImpulseAtPoint`: immediate velocity change
`Δv = J / m`, `Δω = I⁻¹ (r × J)`. -/
def applyImpulseAtPoint (b : RigidBody) (impulse point : V3) : RigidBody :=
  let v : V3 := ⟨b.velocity.x + impulse.x * b.inverseMass,
                 b.velocity.y + impulse.y * b.inverseMass,
                 b.velocity.z + impulse.z * b.inverseMass⟩
  let r : V3 := ⟨point.x - b.position.x, point.y - b.position.y,
                 point.z - b.position.z⟩
  let rCrossJ : V3 := ⟨r.y * impulse.z - r.z * impulse.y,
                       r.z * impulse.x - r.x * impulse.z,
                       r.x * impulse.y - r.y * impulse.x⟩
  { b with velocity := v,
           angularVelocity := ⟨b.angularVelocity.x + rCrossJ.x * b.inverseInertia,
                               b.angularVelocity.y + rCrossJ.y * b.inverseInertia,
                               b.angularVelocity.z + rCrossJ.z * b.inverseInertia⟩ }

/-- `RigidBody.getVelocityAtPoint`: `v_point = v_cm + ω × r`. -/
def getVelocityAtPoint (b : RigidBody) (point : V3) : V3 :=
  let r : V3 := ⟨point.x - b.position.x, point.y - b.position.y,
                 point.z - b.position.z⟩
  let omegaCrossR : V3 :=
    ⟨b.angularVelocity.y * r.z - b.angularVelocity.z * r.y,
     b.angularVelocity.z * r.x - b.angularVelocity.x * r.z,
     b.angularVelocity.x * r.y - b.angularVelocity.y * r.x⟩
  ⟨b.velocity.x + omegaCrossR.x, b.velocity.y + omegaCrossR.y,
   b.velocity.z + omegaCrossR.z⟩

/-- `RigidBody.getWorldVertices`: every local vertex through
`localToWorld`. -/
def getWorldVertices (b : RigidBody) : List V3 :=
  b.localVertices.map b.localToWorld

/-- `RigidBody.clearForces`. -/
def clearForces (b : RigidBody) : RigidBody :=
  { b with force := V3.zero, torque := V3.zero }

/-- `RigidBody.getSpeed`: Euclidean norm of the velocity. -/
def getSpeed (b : RigidBody) : ℝ :=
  Real.sqrt (b.velocity.x * b.velocity.x + b.velocity.y * b.velocity.y +
    b.velocity.z * b.velocity.z)

/-- `RigidBody.getAngularSpeed`: Euclidean norm of the angular velocity. -/
def getAngularSpeed (b : RigidBody) : ℝ :=
  Real.sqrt (b.angularVelocity.x * b.angularVelocity.x +
    b.angularVelocity.y * b.angularVelocity.y +
    b.angularVelocity.z * b.angularVelocity.z)

/-- `RigidBody.normalizeQuaternion`: rescale to unit length, guarded by a
small epsilon. -/
def normalizeQuaternion (b : RigidBody) : RigidBody :=
  let q := b.quaternion
  let len := Real.sqrt (q.w * q.w + q.x * q.x + q.y * q.y + q.z * q.z)
  if len > 1/10000 then
    let invLen := 1 / len
    { b with quaternion := ⟨q.w * invLen, q.x * invLen, q.y * invLen, q.z * invLen⟩ }
  else b

end RigidBody

/-- `js/physics/integrator.js`, `applyDrag`: velocity-squared drag forces,
guarded at tiny speeds. -/
def applyDrag (b : RigidBody) : RigidBody :=
  let speed := b.getSpeed
  let b1 :=
    if speed > 1/1000 then
      let dragMag := PHYSICS.LINEAR_DRAG * speed * speed
      let factor := -dragMag / speed
      b.applyForce (b.velocity.x * factor) (b.velocity.y * factor)
        (b.velocity.z * factor)
    else b
  let angSpeed := b1.getAngularSpeed
  if angSpeed > 1/1000 then
    let angDragMag := PHYSICS.ANGULAR_DRAG * angSpeed * angSpeed
    let angFactor := -angDragMag / angSpeed
    b1.applyTorque (b1.angularVelocity.x * angFactor)
      (b1.angularVelocity.y * angFactor) (b1.angularVelocity.z * angFactor)
  else b1

/-- `js/physics/integrator.js`, `integrateQuaternion`:
`q += (0.5 * ω_quat * q) * dt`. -/
def integrateQuaternion (b : RigidBody) (dt : ℝ) : RigidBody :=
  let q := b.quaternion
  let w := b.angularVelocity
  let dq : Quat :=
    ⟨-(1/2) * (w.x * q.x + w.y * q.y + w.z * q.z),
     (1/2) * (w.x * q.w + w.y * q.z - w.z * q.y),
     (1/2) * (w.y * q.w + w.z * q.x - w.x * q.z),
     (1/2) * (w.z * q.w + w.x * q.y - w.y * q.x)⟩
  { b with quaternion := ⟨q.w + dq.w * dt, q.x + dq.x * dt,
                          q.y + dq.y * dt, q.z + dq.z * dt⟩ }

/-- `js/physics/integrator.js`, `integrate`: semi-implicit Euler — gravity,
drag, velocity update, position update with the new velocity, quaternion
integration, renormalisation, force clearing. -/
def integrate (b : RigidBody) (dt : ℝ) : RigidBody :=
  let b1 := b.applyForce 0 (-PHYSICS.GRAVITY * b.mass) 0
  let b2 := applyDrag b1
  let b3 := { b2 with
    velocity := ⟨b2.velocity.x + (b2.force.x * b2.inverseMass) * dt,
                 b2.velocity.y + (b2.force.y * b2.inverseMass) * dt,
                 b2.velocity.z + (b2.force.z * b2.inverseMass) * dt⟩,
    angularVelocity :=
      ⟨b2.angularVelocity.x + (b2.torque.x * b2.inverseInertia) * dt,
       b2.angularVelocity.y + (b2.torque.y * b2.inverseInertia) * dt,
       b2.angularVelocity.z + (b2.torque.z * b2.inverseInertia) * dt⟩ }
  let b4 := { b3 with
    position := ⟨b3.position.x + b3.velocity.x * dt,
                 b3.position.y + b3.velocity.y * dt,
                 b3.position.z + b3.velocity.z * dt⟩ }
  let b5 := integrateQuaternion b4 dt
  let b6 := b5.normalizeQuaternion
  b6.clearForces

/-- `js/physics/collision.js`, `calculateFrictionImpulse`: Coulomb friction
against the horizontal contact velocity (the `contactPoint` parameter is
unused in the source as well). -/
def calculateFrictionImpulse (b : RigidBody) (contactPoint pointVelocity : V3)
    (normalImpulseMag : ℝ) : V3 :=
  let vt : V3 := ⟨pointVelocity.x, 0, pointVelocity.z⟩
  let vtMag := Real.sqrt (vt.x * vt.x + vt.z * vt.z)
  if vtMag < 1/1000 then ⟨0, 0, 0⟩
  else
    let tangent : V3 := ⟨-vt.x / vtMag, 0, -vt.z / vtMag⟩
    let maxFriction := |normalImpulseMag| * PHYSICS.KINETIC_FRICTION
    let frictionMag := min maxFriction (vtMag * b.mass * (1/2))
    ⟨tangent.x * frictionMag, 0, tangent.z * frictionMag⟩

/-- The impulse denominator of
`js/physics/collision.js`, `calculateCollisionImpulse`:
`1/m + ((I⁻¹ (r × n)) × r) · n` written out by the source's component
formulas (kept as a named definition so the safety claim can speak about
it). -/
def groundImpulseDenominator (b : RigidBody) (contactPoint : V3) : ℝ :=
  let n : V3 := ⟨0, 1, 0⟩
  let r : V3 := ⟨contactPoint.x - b.position.x, contactPoint.y - b.position.y,
                 contactPoint.z - b.position.z⟩
  let rCrossN : V3 := ⟨r.y * n.z - r.z * n.y, r.z * n.x - r.x * n.z,
                       r.x * n.y - r.y * n.x⟩
  let iInvRCrossN : V3 := ⟨rCrossN.x * b.inverseInertia,
                           rCrossN.y * b.inverseInertia,
                           rCrossN.z * b.inverseInertia⟩
  let iInvRCrossN_CrossR : V3 :=
    ⟨iInvRCrossN.y * r.z - iInvRCrossN.z * r.y,
     iInvRCrossN.z * r.x - iInvRCrossN.x * r.z,
     iInvRCrossN.x * r.y - iInvRCrossN.y * r.x⟩
  let angularTerm := iInvRCrossN_CrossR.y
  b.inverseMass + angularTerm

/-- `js/physics/collision.js`, `calculateCollisionImpulse`: normal impulse
`j = -(1+e) vₙ / denominator` plus the friction impulse. -/
def calculateCollisionImpulse (b : RigidBody) (contactPoint pointVelocity : V3) : V3 :=
  let vn := pointVelocity.y
  let denominator := groundImpulseDenominator b contactPoint
  let j := -(1 + PHYSICS.RESTITUTION) * vn / denominator
  let normalImpulse : V3 := ⟨0, j, 0⟩
  let frictionImpulse := calculateFrictionImpulse b contactPoint pointVelocity j
  ⟨normalImpulse.x + frictionImpulse.x, normalImpulse.y + frictionImpulse.y,
   normalImpulse.z + frictionImpulse.z⟩

/-- `js/physics/collision.js`, `applyContactDamping`: damp horizontal
velocity and all angular velocity while in ground contact. -/
def applyContactDamping (b : RigidBody) : RigidBody :=
  let damping := PHYSICS.CONTACT_DAMPING
  { b with
    velocity := ⟨b.velocity.x * damping, b.velocity.y, b.velocity.z * damping⟩,
    angularVelocity := ⟨b.angularVelocity.x * damping,
                        b.angularVelocity.y * damping,
                        b.angularVelocity.z * damping⟩ }

/-- One iteration of the vertex loop of `resolveGroundCollision`, for a
vertex already known to penetrate: impulse only when the contact point
moves downward. -/
def groundVertexStep (b : RigidBody) (vertex : V3) : RigidBody :=
  let pointVelocity := b.getVelocityAtPoint vertex
  if pointVelocity.y < 0 then
    b.applyImpulseAtPoint (calculateCollisionImpulse b vertex pointVelocity) vertex
  else b

/-- `js/physics/collision.js`, `resolveGroundCollision`: per-vertex impulse
loop, Baumgarte positional correction, contact damping.  The fold state is
`(body, deepestPenetration, collisionOccurred)`; vertex world positions are
computed once up front, exactly as the source does. -/
def resolveGroundCollision (b : RigidBody) : RigidBody :=
  let worldVertices := b.getWorldVertices
  let res := worldVertices.foldl
    (fun (st : RigidBody × ℝ × Bool) vertex =>
      let penetration := PHYSICS.GROUND_Y - vertex.y
      if penetration > 0 then
        (groundVertexStep st.1 vertex, max st.2.1 penetration, true)
      else st)
    (b, 0, false)
  let b1 := res.1
  let deepestPenetration := res.2.1
  let collisionOccurred := res.2.2
  let b2 :=
    if deepestPenetration > PHYSICS.PENETRATION_SLOP then
      { b1 with position := ⟨b1.position.x,
          b1.position.y +
            (deepestPenetration - PHYSICS.PENETRATION_SLOP) * PHYSICS.POSITION_CORRECTION,
          b1.position.z⟩ }
    else b1
  if collisionOccurred then applyContactDamping b2 else b2

/-- The `// Left wall` block of `js/physics/collision.js`,
`resolveWallCollisions` (the source uses the shared `D6.HALF_SIZE` for
every body). -/
def leftWallBlock (b : RigidBody) : RigidBody :=
  if b.position.x - D6.HALF_SIZE < PHYSICS.MIN_X then
    let bp : RigidBody :=
      { b with position := ⟨PHYSICS.MIN_X + D6.HALF_SIZE, b.position.y, b.position.z⟩ }
    if bp.velocity.x < 0 then
      { bp with
        velocity := ⟨-bp.velocity.x * PHYSICS.WALL_RESTITUTION, bp.velocity.y, bp.velocity.z⟩,
        angularVelocity := ⟨bp.angularVelocity.x, bp.angularVelocity.y,
          bp.angularVelocity.z + bp.velocity.y * (1/2)⟩ }
    else bp
  else b

/-- The `// Right wall` block of `resolveWallCollisions`. -/
def rightWallBlock (b : RigidBody) : RigidBody :=
  if b.position.x + D6.HALF_SIZE > PHYSICS.MAX_X then
    let bp : RigidBody :=
      { b with position := ⟨PHYSICS.MAX_X - D6.HALF_SIZE, b.position.y, b.position.z⟩ }
    if bp.velocity.x > 0 then
      { bp with
        velocity := ⟨-bp.velocity.x * PHYSICS.WALL_RESTITUTION, bp.velocity.y, bp.velocity.z⟩,
        angularVelocity := ⟨bp.angularVelocity.x, bp.angularVelocity.y,
          bp.angularVelocity.z - bp.velocity.y * (1/2)⟩ }
    else bp
  else b

/-- The `// Back wall` block of `resolveWallCollisions`. -/
def backWallBlock (b : RigidBody) : RigidBody :=
  if b.position.z - D6.HALF_SIZE < PHYSICS.MIN_Z then
    let bp : RigidBody :=
      { b with position := ⟨b.position.x, b.position.y, PHYSICS.MIN_Z + D6.HALF_SIZE⟩ }
    if bp.velocity.z < 0 then
      { bp with
        velocity := ⟨bp.velocity.x, bp.velocity.y, -bp.velocity.z * PHYSICS.WALL_RESTITUTION⟩,
        angularVelocity := ⟨bp.angularVelocity.x - bp.velocity.y * (1/2),
          bp.angularVelocity.y, bp.angularVelocity.z⟩ }
    else bp
  else b

/-- The `// Front wall` block of `resolveWallCollisions`. -/
def frontWallBlock (b : RigidBody) : RigidBody :=
  if b.position.z + D6.HALF_SIZE > PHYSICS.MAX_Z then
    let bp : RigidBody :=
      { b with position := ⟨b.position.x, b.position.y, PHYSICS.MAX_Z - D6.HALF_SIZE⟩ }
    if bp.velocity.z > 0 then
      { bp with
        velocity := ⟨bp.velocity.x, bp.velocity.y, -bp.velocity.z * PHYSICS.WALL_RESTITUTION⟩,
        angularVelocity := ⟨bp.angularVelocity.x + bp.velocity.y * (1/2),
          bp.angularVelocity.y, bp.angularVelocity.z⟩ }
    else bp
  else b

/-- `js/physics/collision.js`, `resolveWallCollisions`: the four wall
blocks run in source order. -/
def resolveWallCollisions (b : RigidBody) : RigidBody :=
  frontWallBlock (backWallBlock (rightWallBlock (leftWallBlock b)))

/-- The `let minY = Infinity; for ... if (v.y < minY) minY = v.y` loop of
`PhysicsEngine.snapToGround` (`Infinity` = `none`). -/
def minWorldY (b : RigidBody) : Option ℝ :=
  b.getWorldVertices.foldl
    (fun acc v =>
      match acc with
      | none => some v.y
      | some m => if v.y < m then some v.y else some m)
    none

/-- `PhysicsEngine.snapToGround` (physics-engine module): move the body so
its lowest vertex sits on the ground, but only when that vertex is within
0.01 of the ground. -/
def snapToGround (b : RigidBody) : RigidBody :=
  match minWorldY b with
  | none => b
  | some minY =>
    if minY < PHYSICS.GROUND_Y + 1/100 then
      { b with position := ⟨b.position.x,
          b.position.y + (PHYSICS.GROUND_Y - minY), b.position.z⟩ }
    else b

/-- `PhysicsEngine.checkSettling`: accumulate the settle timer while below
both velocity thresholds; on reaching `SETTLING_TIME` zero the velocities,
snap to the ground and mark settled; otherwise reset the timer. -/
def checkSettling (b : RigidBody) (dt : ℝ) : RigidBody :=
  let speed := b.getSpeed
  let angSpeed := b.getAngularSpeed
  if speed < PHYSICS.VELOCITY_THRESHOLD ∧ angSpeed < PHYSICS.ANGULAR_THRESHOLD then
    let b1 := { b with settleTimer := b.settleTimer + dt }
    if b1.settleTimer ≥ PHYSICS.SETTLING_TIME then
      let b2 := { b1 with velocity := V3.zero, angularVelocity := V3.zero }
      let b3 := snapToGround b2
      { b3 with isSettled := true }
    else b1
  else { b with settleTimer := 0 }

/-- The per-body part of `PhysicsEngine.step`: settled bodies are skipped
entirely; others are integrated, resolved against ground and walls, and
settle-checked.  (`PhysicsEngine.step` runs this for each body in turn;
bodies do not interact inside `step`.) -/
def stepBody (dt : ℝ) (b : RigidBody) : RigidBody :=
  if b.isSettled then b
  else checkSettling (resolveWallCollisions (resolveGroundCollision (integrate b dt))) dt

/-- `js/physics/collision.js`, `resolveSphereCollision`: sphere-based
dice-to-dice contact — wake on fast relative speed, impulse, spin,
positional separation. -/
def resolveSphereCollision (bodyA bodyB : RigidBody) : RigidBody × RigidBody :=
  let dx := bodyB.position.x - bodyA.position.x
  let dy := bodyB.position.y - bodyA.position.y
  let dz := bodyB.position.z - bodyA.position.z
  let distSq := dx * dx + dy * dy + dz * dz
  let radiusA := bodyA.halfSize * (13/10)
  let radiusB := bodyB.halfSize * (13/10)
  let minDist := radiusA + radiusB
  if distSq ≥ minDist * minDist then (bodyA, bodyB)
  else if distSq < 1/10000 then (bodyA, bodyB)
  else
    let dist := Real.sqrt distSq
    let penetration := minDist - dist
    let nx := dx / dist
    let ny := dy / dist
    let nz := dz / dist
    let relVelX := bodyA.velocity.x - bodyB.velocity.x
    let relVelY := bodyA.velocity.y - bodyB.velocity.y
    let relVelZ := bodyA.velocity.z - bodyB.velocity.z
    let relVelN := relVelX * nx + relVelY * ny + relVelZ * nz
    let relSpeed := Real.sqrt (relVelX * relVelX + relVelY * relVelY + relVelZ * relVelZ)
    let wakeThreshold : ℝ := 1/2
    let a1 :=
      if relSpeed > wakeThreshold then
        if bodyA.isSettled then { bodyA with isSettled := false, settleTimer := 0 }
        else bodyA
      else bodyA
    let b1 :=
      if relSpeed > wakeThreshold then
        if bodyB.isSettled then { bodyB with isSettled := false, settleTimer := 0 }
        else bodyB
      else bodyB
    let impulsePair :=
      if relVelN < -PHYSICS.DICE_VELOCITY_THRESHOLD then
        let e := PHYSICS.DICE_RESTITUTION
        let totalInvMass := a1.inverseMass + b1.inverseMass
        let j := -(1 + e) * relVelN / totalInvMass
        let impulseX := j * nx
        let impulseY := j * ny
        let impulseZ := j * nz
        let spinFactor : ℝ := 3/10
        let a2 := { a1 with
          velocity := ⟨a1.velocity.x + impulseX * a1.inverseMass,
                       a1.velocity.y + impulseY * a1.inverseMass,
                       a1.velocity.z + impulseZ * a1.inverseMass⟩,
          angularVelocity := ⟨a1.angularVelocity.x + (ny * nz) * j * spinFactor,
                              a1.angularVelocity.y,
                              a1.angularVelocity.z + (nx * ny) * j * spinFactor⟩ }
        let b2 := { b1 with
          velocity := ⟨b1.velocity.x - impulseX * b1.inverseMass,
                       b1.velocity.y - impulseY * b1.inverseMass,
                       b1.velocity.z - impulseZ * b1.inverseMass⟩,
          angularVelocity := ⟨b1.angularVelocity.x - (ny * nz) * j * spinFactor,
                              b1.angularVelocity.y,
                              b1.angularVelocity.z - (nx * ny) * j * spinFactor⟩ }
        (a2, b2)
      else (a1, b1)
    let a3 := impulsePair.1
    let b3 := impulsePair.2
    if penetration > 1/1000 then
      let correction := penetration * (3/10)
      let ratioA := a3.inverseMass / (a3.inverseMass + b3.inverseMass)
      let ratioB := b3.inverseMass / (a3.inverseMass + b3.inverseMass)
      ({ a3 with position := ⟨a3.position.x - nx * correction * ratioA,
                              a3.position.y - ny * correction * ratioA,
                              a3.position.z - nz * correction * ratioA⟩ },
       { b3 with position := ⟨b3.position.x + nx * correction * ratioB,
                              b3.position.y + ny * correction * ratioB,
                              b3.position.z + nz * correction * ratioB⟩ })
    else (a3, b3)

/-- The argmax loop of `js/d6-dice.js`, `getD6Value`
(`maxDot = -Infinity` is embedded as `none`). -/
def getD6ValueGo (q : Quat) : List (ℕ × V3) → Option ℝ → ℕ → ℕ
  | [], _, topFaceIndex => topFaceIndex
  | (i, n) :: rest, maxDot, topFaceIndex =>
    let worldNormal := rotateByQuaternion n q
    let dot := worldNormal.y
    match maxDot with
    | none => getD6ValueGo q rest (some dot) i
    | some m =>
      if dot > m then getD6ValueGo q rest (some dot) i
      else getD6ValueGo q rest (some m) topFaceIndex

/-- `js/d6-dice.js`, `getD6Value`: face index whose rotated normal points
most upward, plus one. -/
def getD6Value (b : RigidBody) : ℕ :=
  getD6ValueGo b.quaternion D6_FACE_NORMALS.enum none 0 + 1

/-- The `while (accumulator >= fixedDt)` loop of `PhysicsEngine.update`:
returns the list of `dt` arguments passed to `step` (one per iteration)
and the final accumulator.  Terminates because each iteration removes one
fixed timestep from a finite accumulator. -/
def stepLoop (acc : ℝ) : List ℝ × ℝ :=
  if h : PHYSICS.FIXED_TIMESTEP ≤ acc then
    let r := stepLoop (acc - PHYSICS.FIXED_TIMESTEP)
    (PHYSICS.FIXED_TIMESTEP :: r.1, r.2)
  else ([], acc)
termination_by (⌈acc / PHYSICS.FIXED_TIMESTEP⌉).toNat
decreasing_by
  have hft : (0:ℝ) < PHYSICS.FIXED_TIMESTEP := by norm_num [PHYSICS.FIXED_TIMESTEP]
  have h1 : (acc - PHYSICS.FIXED_TIMESTEP) / PHYSICS.FIXED_TIMESTEP =
      acc / PHYSICS.FIXED_TIMESTEP - 1 := by field_simp
  have h2 : (0:ℝ) < acc / PHYSICS.FIXED_TIMESTEP :=
    div_pos (lt_of_lt_of_le hft h) hft
  have h3 : (0:ℤ) < ⌈acc / PHYSICS.FIXED_TIMESTEP⌉ := Int.ceil_pos.mpr h2
  rw [h1, Int.ceil_sub_one]
  omega

/-- `PhysicsEngine.update`: clamp the wall-clock delta, add it to the
accumulator and run the fixed-step loop; result = (list of step dts, new
accumulator). -/
def engineUpdate (accumulator deltaTime : ℝ) : List ℝ × ℝ :=
  let dt := min deltaTime PHYSICS.MAX_ACCUMULATOR
  stepLoop (accumulator + dt)

end Engine

namespace V3

/-- `THREE.Vector3.normalize`: `divideScalar(this.length() || 1)` — the
zero vector stays zero. -/
def normalize (v : V3) : V3 :=
  if v.length = 0 then v else ⟨v.x / v.length, v.y / v.length, v.z / v.length⟩

end V3

namespace Quat

def length (q : Quat) : ℝ := Real.sqrt q.normSq

/-- `THREE.Quaternion.normalize`: divide by the length, or reset to the
identity when the length is zero. -/
def normalize (q : Quat) : Quat :=
  let l := q.length
  if l = 0 then ⟨1, 0, 0, 0⟩ else ⟨q.w / l, q.x / l, q.y / l, q.z / l⟩

/-- Hamilton product `a * b` (`THREE.Quaternion.multiplyQuaternions`;
`premultiply(q)` is `mul q this`). -/
def mul (a b : Quat) : Quat :=
  ⟨a.w * b.w - a.x * b.x - a.y * b.y - a.z * b.z,
   a.x * b.w + a.w * b.x + a.y * b.z - a.z * b.y,
   a.y * b.w + a.w * b.y + a.z * b.x - a.x * b.z,
   a.z * b.w + a.w * b.z + a.x * b.y - a.y * b.x⟩

/-- `THREE.Quaternion.setFromAxisAngle` (axis assumed normalised). -/
def fromAxisAngle (axis : V3) (angle : ℝ) : Quat :=
  let halfAngle := angle / 2
  let s := Real.sin halfAngle
  ⟨Real.cos halfAngle, axis.x * s, axis.y * s, axis.z * s⟩

end Quat

namespace Dice

/-- `js/physics.js`, `PHYSICS` object of the PhysicsDie variant. -/
def gravity : ℝ := 28

def restitution : ℝ := 3/10

def diceRestitution : ℝ := 35/100

def linearDamping : ℝ := 995/1000

def angularDamping : ℝ := 96/100

def settleSpeedThreshold : ℝ := 1/10

def settleAngSpeedThreshold : ℝ := 15/100

def settleFlatnessThreshold : ℝ := 99/100

def settleFramesRequired : ℝ := 3

def minBounceVelocity : ℝ := 4/10

def bounceAngularReduction : ℝ := 6/10

def groundFriction : ℝ := 4/10

/-- The local `const bounds = 4` of `PhysicsDie.update`. -/
def bounds : ℝ := 4

/-- `js/physics.js`, class `PhysicsDie`.  `α` is the type of face values
(the configs use numbers and strings). -/
structure PhysicsDie (α : Type) where
  position : V3
  velocity : V3
  quaternion : Quat
  angularVelocity : V3
  settled : Bool
  settleCounter : ℝ
  size : ℝ
  vertices : List V3
  faceNormals : List V3
  faceValues : List α
  collisionRadius : ℝ
  readBottom : Bool
  restHeight : ℝ

variable {α : Type}

namespace PhysicsDie

/-- `PhysicsDie.applyImpulse`: add to both velocities, clear the settled
state. -/
def applyImpulse (d : PhysicsDie α) (force torque : V3) : PhysicsDie α :=
  { d with velocity := V3.add d.velocity force,
           angularVelocity := V3.add d.angularVelocity torque,
           settled := false, settleCounter := 0 }

/-- `PhysicsDie.getFlatness`: largest `|worldNormal · up|` over the face
normals; `maxDot` starts at 0. -/
def getFlatness (d : PhysicsDie α) : ℝ :=
  d.faceNormals.foldl
    (fun maxDot normal =>
      let worldNormal := rotateByQuaternion normal d.quaternion
      let dot := |worldNormal.y|
      if dot > maxDot then dot else maxDot)
    0

/-- `PhysicsDie.getWorldVertices`. -/
def getWorldVertices (d : PhysicsDie α) : List V3 :=
  d.vertices.map (fun v => V3.add (rotateByQuaternion v d.quaternion) d.position)

end PhysicsDie

/-- The record returned by `PhysicsDie.getGroundContactInfo`, kept in scan
form: `lowestY = none` is the JS `Infinity` start value. -/
structure ContactInfo where
  lowestY : Option ℝ
  lowestVertex : Option V3
  contactCount : ℕ

namespace ContactInfo

/-- `isOnGround: lowestY <= groundY + 0.01`. -/
def isOnGround (i : ContactInfo) : Prop :=
  match i.lowestY with
  | none => False
  | some m => m ≤ 0 + 1/100

instance (i : ContactInfo) : Decidable i.isOnGround := by
  unfold isOnGround; exact match i.lowestY with
    | none => isFalse id
    | some _ => inferInstance

/-- `penetration: Math.max(0, groundY - lowestY)`. -/
def penetration (i : ContactInfo) : ℝ :=
  match i.lowestY with
  | none => 0
  | some m => max 0 (0 - m)

/-- `isStable: contactCount >= 3`. -/
def isStable (i : ContactInfo) : Prop := 3 ≤ i.contactCount

end ContactInfo

namespace PhysicsDie

/-- `PhysicsDie.getGroundContactInfo`: one pass over the vertices tracking
the lowest world vertex and the number of vertices within the 0.05 contact
threshold. -/
def getGroundContactInfo (d : PhysicsDie α) : ContactInfo :=
  d.vertices.foldl
    (fun (st : ContactInfo) v =>
      let worldVertex := V3.add (rotateByQuaternion v d.quaternion) d.position
      let low :=
        match st.lowestY, st.lowestVertex with
        | none, _ => (some worldVertex.y, some worldVertex)
        | some m, lv =>
          if worldVertex.y < m then (some worldVertex.y, some worldVertex)
          else (some m, lv)
      let cnt := if worldVertex.y < 0 + 1/20 then st.contactCount + 1 else st.contactCount
      ⟨low.1, low.2, cnt⟩)
    ⟨none, none, 0⟩

/-- `PhysicsDie.applyDamping`. -/
def applyDamping (d : PhysicsDie α) : PhysicsDie α :=
  { d with velocity := V3.smul Dice.linearDamping d.velocity,
           angularVelocity := V3.smul Dice.angularDamping d.angularVelocity }

/-- `PhysicsDie.applyGravityTorque`: tipping torque `r × F` from the lowest
contact vertex, applied only while on the ground. -/
def applyGravityTorque (d : PhysicsDie α) (dt : ℝ) (info : ContactInfo) :
    PhysicsDie α :=
  if info.isOnGround then
    match info.lowestVertex with
    | none => d
    | some lv =>
      let r := V3.sub d.position lv
      let gravityForce : V3 := ⟨0, -Dice.gravity, 0⟩
      let torque := V3.cross r gravityForce
      { d with angularVelocity := V3.add d.angularVelocity (V3.smul dt torque) }
  else d

/-- The integration block of `PhysicsDie.update`: gravity, damping,
position update, quaternion update (guarded at tiny angular speed). -/
def integrateBlock (d : PhysicsDie α) (dt : ℝ) : PhysicsDie α :=
  let d1 := { d with velocity := ⟨d.velocity.x, d.velocity.y - Dice.gravity * dt, d.velocity.z⟩ }
  let d2 := applyDamping d1
  let d3 := { d2 with position := V3.add d2.position (V3.smul dt d2.velocity) }
  let angVelLength := d3.angularVelocity.length
  if angVelLength > 1/10000 then
    let axis := d3.angularVelocity.normalize
    let angle := angVelLength * dt
    let deltaQ := Quat.fromAxisAngle axis angle
    { d3 with quaternion := (Quat.mul deltaQ d3.quaternion).normalize }
  else d3

/-- The ground-collision block of `PhysicsDie.update`: recheck contact
after movement, push up by the penetration, bounce or stop, friction, spin
reduction, gravity torque.  Returns the body together with the contact
info, which the settle check reads afterwards. -/
def groundBlock (d : PhysicsDie α) (dt : ℝ) : PhysicsDie α × ContactInfo :=
  let newContactInfo := getGroundContactInfo d
  if newContactInfo.penetration > 0 then
    let da := { d with position := ⟨d.position.x, d.position.y + newContactInfo.penetration, d.position.z⟩ }
    let db :=
      if da.velocity.y < -Dice.minBounceVelocity then
        let frictionFactor := 1 - Dice.groundFriction * (3/10)
        { da with
          velocity := ⟨da.velocity.x * frictionFactor,
                       -da.velocity.y * Dice.restitution,
                       da.velocity.z * frictionFactor⟩,
          angularVelocity := V3.smul Dice.bounceAngularReduction da.angularVelocity,
          settleCounter := 0 }
      else
        { da with velocity := ⟨da.velocity.x, max 0 da.velocity.y, da.velocity.z⟩ }
    (applyGravityTorque db dt newContactInfo, newContactInfo)
  else (d, newContactInfo)

/-- Math.sign. -/
def sign (x : ℝ) : ℝ := if x > 0 then 1 else if x < 0 then -1 else 0

/-- The wall-collision block of `PhysicsDie.update`: clamp the centre to
`±bounds`, reflect the velocity component scaled by the restitution, reset
the settle counter. -/
def wallBlock (d : PhysicsDie α) : PhysicsDie α :=
  let d1 :=
    if |d.position.x| > Dice.bounds then
      { d with position := ⟨sign d.position.x * Dice.bounds, d.position.y, d.position.z⟩,
               velocity := ⟨-d.velocity.x * Dice.restitution, d.velocity.y, d.velocity.z⟩,
               settleCounter := 0 }
    else d
  if |d1.position.z| > Dice.bounds then
    { d1 with position := ⟨d1.position.x, d1.position.y, sign d1.position.z * Dice.bounds⟩,
              velocity := ⟨d1.velocity.x, d1.velocity.y, -d1.velocity.z * Dice.restitution⟩,
              settleCounter := 0 }
  else d1

/-- `PhysicsDie.snapToFace`: rotate the face normal most aligned with up
exactly onto up (when the rotation axis is non-degenerate), set the rest
height (`config.restHeight || size / 2` — the JS `||` falls back when the
field is 0) and zero both velocities. -/
def snapToFace (d : PhysicsDie α) : PhysicsDie α :=
  let upWorld : V3 := ⟨0, 1, 0⟩
  let best :=
    d.faceNormals.foldl
      (fun (st : ℝ × Option V3) normal =>
        let worldNormal := rotateByQuaternion normal d.quaternion
        let dot := V3.dot worldNormal upWorld
        if dot > st.1 then (dot, some normal) else st)
      (-1, none)
  let d1 :=
    match best.2 with
    | none => d
    | some bestNormal =>
      let currentUp := rotateByQuaternion bestNormal d.quaternion
      let rotationAxis := V3.cross currentUp upWorld
      if rotationAxis.length > 1/1000 then
        let axis := rotationAxis.normalize
        let angle := Real.arccos (min 1 (V3.dot currentUp upWorld))
        let correction := Quat.fromAxisAngle axis angle
        { d with quaternion := (Quat.mul correction d.quaternion).normalize }
      else d
  { d1 with
    position := ⟨d1.position.x,
                 (if d1.restHeight = 0 then d1.size / 2 else d1.restHeight),
                 d1.position.z⟩,
    velocity := V3.zero, angularVelocity := V3.zero }

/-- The settle check at the end of `PhysicsDie.update`: all four criteria
must hold to advance the counter; past `settleFramesRequired` the die is
settled and snapped; otherwise the counter decreases gradually. -/
def settleBlock (d : PhysicsDie α) (info : ContactInfo) : PhysicsDie α :=
  let speed := d.velocity.length
  let angSpeed := d.angularVelocity.length
  let flatness := getFlatness d
  if speed < Dice.settleSpeedThreshold ∧ angSpeed < Dice.settleAngSpeedThreshold ∧
      flatness > Dice.settleFlatnessThreshold ∧ info.isOnGround then
    let d1 := { d with settleCounter := d.settleCounter + 1 }
    if d1.settleCounter > Dice.settleFramesRequired then
      snapToFace { d1 with settled := true }
    else d1
  else { d with settleCounter := max 0 (d.settleCounter - 1) }

/-- `PhysicsDie.update`: settled dice return immediately; otherwise run the
integration, ground, wall and settle blocks in order. -/
def update (dt : ℝ) (d : PhysicsDie α) : PhysicsDie α :=
  if d.settled then d
  else
    let d1 := integrateBlock d dt
    let gr := groundBlock d1 dt
    let d2 := wallBlock gr.1
    settleBlock d2 gr.2

/-- Pair each face normal with `faceValues[i]` (`none` when the index runs
past the end, which is JS `undefined`). -/
def valuePairs : List V3 → List α → List (V3 × Option α)
  | [], _ => []
  | n :: ns, [] => (n, none) :: valuePairs ns []
  | n :: ns, v :: vs => (n, some v) :: valuePairs ns vs

/-- The argmax loop of `PhysicsDie.getValue`
(`bestDot = -Infinity` is `none`). -/
def getValueGo (dir : ℝ) (q : Quat) :
    List (V3 × Option α) → Option ℝ → Option α → Option α
  | [], _, result => result
  | (n, v) :: rest, bestDot, result =>
    let worldNormal := rotateByQuaternion n q
    let dot := worldNormal.y * dir
    match bestDot with
    | none => getValueGo dir q rest (some dot) v
    | some b =>
      if dot > b then getValueGo dir q rest (some dot) v
      else getValueGo dir q rest (some b) result

/-- `PhysicsDie.getValue`: value paired with the face normal pointing most
upward (downward when `readBottom`); `none` models JS `undefined`. -/
def getValue (d : PhysicsDie α) : Option α :=
  let direction : ℝ := if d.readBottom then -1 else 1
  getValueGo direction d.quaternion (valuePairs d.faceNormals d.faceValues)
    none (d.faceValues.get? 0)

end PhysicsDie

/-- The `normalVel` computed inside `DiceCollisionSystem.resolveCollision`
(relative contact-point velocity after the positional separation, dotted
with the collision normal); a named copy so theorems can state the
source's branch condition. -/
def resolveCollisionNormalVel (dieA dieB : PhysicsDie α) (depth : ℝ)
    (normal contactPoint : V3) : ℝ :=
  let separation := V3.smul (depth * (1/2)) normal
  let a1 := { dieA with position := V3.add dieA.position separation }
  let b1 := { dieB with position := V3.sub dieB.position separation }
  let rA := V3.sub contactPoint a1.position
  let rB := V3.sub contactPoint b1.position
  let velA := V3.add a1.velocity (V3.cross a1.angularVelocity rA)
  let velB := V3.add b1.velocity (V3.cross b1.angularVelocity rB)
  V3.dot (V3.sub velA velB) normal

/-- `js/collision.js`, `DiceCollisionSystem.resolveCollision`: positional
separation, then (for non-separating contacts) a symmetric impulse, angular
impulses scaled by 0.3, and an unconditional settle reset of both dice. -/
def resolveCollision (dieA dieB : PhysicsDie α) (depth : ℝ)
    (normal contactPoint : V3) : PhysicsDie α × PhysicsDie α :=
  let separation := V3.smul (depth * (1/2)) normal
  let a1 := { dieA with position := V3.add dieA.position separation }
  let b1 := { dieB with position := V3.sub dieB.position separation }
  let rA := V3.sub contactPoint a1.position
  let rB := V3.sub contactPoint b1.position
  let normalVel := resolveCollisionNormalVel dieA dieB depth normal contactPoint
  if normalVel > 0 then (a1, b1)
  else
    let impulseMagnitude := -(1 + Dice.diceRestitution) * normalVel / 2
    let impulse := V3.smul impulseMagnitude normal
    let a2 := { a1 with velocity := V3.add a1.velocity impulse }
    let b2 := { b1 with velocity := V3.sub b1.velocity impulse }
    let angularImpulseA := V3.cross rA impulse
    let angularImpulseB := V3.cross rB impulse
    let a3 := { a2 with
      angularVelocity := V3.add a2.angularVelocity (V3.smul (3/10) angularImpulseA),
      settled := false, settleCounter := 0 }
    let b3 := { b2 with
      angularVelocity := V3.sub b2.angularVelocity (V3.smul (3/10) angularImpulseB),
      settled := false, settleCounter := 0 }
    (a3, b3)

end Dice

/-- A resting engine body tilted by the unit quaternion `(4/5, 0, 0, 3/5)`
(rotation about z), at rest with its settle timer already at the settling
duration; its lowest vertex sits 2/25 above the ground. -/
def tiltedRestingBody : Engine.RigidBody :=
  { position := ⟨0, 7/10, 0⟩, quaternion := ⟨4/5, 0, 0, 3/5⟩,
    velocity := V3.zero, angularVelocity := V3.zero,
    mass := 1, inverseMass := 1, inertia := 1/6, inverseInertia := 6,
    force := V3.zero, torque := V3.zero,
    localVertices := Engine.D6_VERTICES, settleTimer := 3/10,
    isSettled := false, collisionRadius := 866/1000, halfSize := 1/2 }

/-- A flat resting engine body (identity orientation, bottom face on the
ground) whose settle timer has reached the settling duration. -/
def flatRestingBody : Engine.RigidBody :=
  { position := ⟨0, 1/2, 0⟩, quaternion := ⟨1, 0, 0, 0⟩,
    velocity := V3.zero, angularVelocity := V3.zero,
    mass := 1, inverseMass := 1, inertia := 1/6, inverseInertia := 6,
    force := V3.zero, torque := V3.zero,
    localVertices := Engine.D6_VERTICES, settleTimer := 3/10,
    isSettled := false, collisionRadius := 866/1000, halfSize := 1/2 }

/-- A settled body at the origin with a nonzero settle timer, used against
the sphere dice-to-dice resolver. -/
def sphereSettledA : Engine.RigidBody :=
  { position := ⟨0, 0, 0⟩, quaternion := ⟨1, 0, 0, 0⟩,
    velocity := V3.zero, angularVelocity := V3.zero,
    mass := 1, inverseMass := 1, inertia := 1/6, inverseInertia := 6,
    force := V3.zero, torque := V3.zero, localVertices := Engine.D6_VERTICES,
    settleTimer := 7/100, isSettled := true,
    collisionRadius := 866/1000, halfSize := 1/2 }

/-- A body overlapping `sphereSettledA` and drifting toward it slowly
(relative speed 3/10, below the 0.5 wake threshold). -/
def sphereSlowB : Engine.RigidBody :=
  { position := ⟨1/2, 0, 0⟩, quaternion := ⟨1, 0, 0, 0⟩,
    velocity := ⟨-3/10, 0, 0⟩, angularVelocity := V3.zero,
    mass := 1, inverseMass := 1, inertia := 1/6, inverseInertia := 6,
    force := V3.zero, torque := V3.zero, localVertices := Engine.D6_VERTICES,
    settleTimer := 0, isSettled := false,
    collisionRadius := 866/1000, halfSize := 1/2 }

/-- Like `sphereSlowB` but hitting fast (relative speed 1 > 0.5). -/
def sphereFastB : Engine.RigidBody :=
  { sphereSlowB with velocity := ⟨-1, 0, 0⟩ }

/-- A settled die at the origin for the vertex-based dice resolver. -/
def dieSettledA : Dice.PhysicsDie ℕ :=
  { position := ⟨0, 0, 0⟩, velocity := V3.zero, quaternion := ⟨1, 0, 0, 0⟩,
    angularVelocity := V3.zero, settled := true, settleCounter := 5,
    size := 1, vertices := [], faceNormals := [⟨0, 1, 0⟩], faceValues := [6],
    collisionRadius := 866/1000, readBottom := false, restHeight := 1/2 }

/-- A die moving toward `dieSettledA` for the vertex-based resolver. -/
def dieMovingB : Dice.PhysicsDie ℕ :=
  { position := ⟨1, 0, 0⟩, velocity := ⟨-1, 0, 0⟩, quaternion := ⟨1, 0, 0, 0⟩,
    angularVelocity := V3.zero, settled := false, settleCounter := 0,
    size := 1, vertices := [], faceNormals := [⟨0, 1, 0⟩], faceValues := [6],
    collisionRadius := 866/1000, readBottom := false, restHeight := 1/2 }

/-- A fast-moving unsettled die high in the air with settle counter 2:
after one update its speed still exceeds the settle threshold, so the
claim predicts a counter of 0 while the code merely decrements it to 1. -/
def counterDie : Dice.PhysicsDie ℕ :=
  { position := ⟨0, 10, 0⟩, velocity := ⟨1, 0, 0⟩, quaternion := ⟨1, 0, 0, 0⟩,
    angularVelocity := V3.zero, settled := false, settleCounter := 2,
    size := 1, vertices := [⟨0, 0, 0⟩], faceNormals := [], faceValues := [],
    collisionRadius := 866/1000, readBottom := false, restHeight := 1/2 }

/-- A fast-moving engine body (speed 1) with a nonzero settle timer. -/
def movingBody : Engine.RigidBody :=
  { position := ⟨0, 2, 0⟩, quaternion := ⟨1, 0, 0, 0⟩,
    velocity := ⟨1, 0, 0⟩, angularVelocity := V3.zero,
    mass := 1, inverseMass := 1, inertia := 1/6, inverseInertia := 6,
    force := V3.zero, torque := V3.zero, localVertices := Engine.D6_VERTICES,
    settleTimer := 2/10, isSettled := false,
    collisionRadius := 866/1000, halfSize := 1/2 }

/-- A body with near-zero inverse mass and inverse inertia (denominator of
the ground impulse 1/1000000), one local vertex at its centre, falling at
1 unit/s with its vertex 0.1 below the ground. -/
def nearZeroDenomBody : Engine.RigidBody :=
  { position := ⟨0, -1/10, 0⟩, quaternion := ⟨1, 0, 0, 0⟩,
    velocity := ⟨0, -1, 0⟩, angularVelocity := V3.zero,
    mass := 1000000, inverseMass := 1/1000000,
    inertia := 1000000, inverseInertia := 1/1000000,
    force := V3.zero, torque := V3.zero, localVertices := [⟨0, 0, 0⟩],
    settleTimer := 0, isSettled := false,
    collisionRadius := 866/1000, halfSize := 1/2 }

/-- A concrete body used to exercise `worldToLocal ∘ localToWorld`:
unit orientation quaternion `(3/5, 0, 0, 4/5)`, a pure rotation about the
z-axis, sitting at the origin. -/
noncomputable def roundtripBody : Engine.RigidBody :=
  { position := ⟨0, 0, 0⟩, quaternion := ⟨3/5, 0, 0, 4/5⟩,
    velocity := V3.zero, angularVelocity := V3.zero,
    mass := 1, inverseMass := 1, inertia := 1/6, inverseInertia := 6,
    force := V3.zero, torque := V3.zero, localVertices := [],
    settleTimer := 0, isSettled := false,
    collisionRadius := 866/1000, halfSize := 1/2 }

/-- The strict-min fold step of `snapToGround` / `minWorldY`, named so the
fold lemmas below rewrite cleanly (definitionally equal to the inline
match in `minWorldY`). -/
def minStep (h : V3 → ℝ) (a : Option ℝ) (v : V3) : Option ℝ :=
  match a with
  | none => some (h v)
  | some m => if h v < m then some (h v) else some m

/-- C6 (code bug).  The spec and the source doc comment
("Transform a world space point to local space / Inverse of localToWorld",
and inline "Then: (qConj * v) * q") require `worldToLocal` to invert
`localToWorld`, but the final quaternion multiplication in the source
reuses the conjugated component pattern of `localToWorld`, computing
`(conj q * v) * conj q` instead of `(conj q * v) * q`.  At the unit
quaternion `(3/5, 0, 0, 4/5)` (rotation about z) and local point
`(1, 0, 0)` the round trip returns `(-7/25, 24/25, 0)`, not `(1, 0, 0)`. -/
theorem C6_roundtrip_fails_on_code :
    roundtripBody.quaternion.normSq = 1 ∧
    roundtripBody.worldToLocal (roundtripBody.localToWorld ⟨1, 0, 0⟩) =
      ⟨-7/25, 24/25, 0⟩ ∧
    roundtripBody.worldToLocal (roundtripBody.localToWorld ⟨1, 0, 0⟩) ≠
      ⟨1, 0, 0⟩ := by
  refine ⟨by norm_num [Quat.normSq, roundtripBody], ?_, ?_⟩
  · simp only [Engine.RigidBody.worldToLocal, Engine.RigidBody.localToWorld,
      roundtripBody]
    norm_num
  · simp only [Engine.RigidBody.worldToLocal, Engine.RigidBody.localToWorld,
      roundtripBody]
    intro hcontra
    rw [V3.mk.injEq] at hcontra
    norm_num at hcontra

/-- The while-loop of `PhysicsEngine.update` runs exactly
`⌊acc / FIXED_TIMESTEP⌋` times, each iteration passing `FIXED_TIMESTEP`
to `step`, and leaves the floor-division remainder in the accumulator. -/
theorem stepLoop_spec (n : ℕ) : ∀ acc : ℝ, 0 ≤ acc →
    ⌊acc / Engine.PHYSICS.FIXED_TIMESTEP⌋₊ = n →
    Engine.stepLoop acc =
      (List.replicate n Engine.PHYSICS.FIXED_TIMESTEP,
       acc - n * Engine.PHYSICS.FIXED_TIMESTEP) := by
  have hft : (0:ℝ) < Engine.PHYSICS.FIXED_TIMESTEP := by
    norm_num [Engine.PHYSICS.FIXED_TIMESTEP]
  induction n with
  | zero =>
    intro acc h0 hn
    have hlt : acc < Engine.PHYSICS.FIXED_TIMESTEP := by
      have h1 : acc / Engine.PHYSICS.FIXED_TIMESTEP < 1 := by
        have := Nat.floor_eq_zero.mp hn
        exact this
      calc acc = acc / Engine.PHYSICS.FIXED_TIMESTEP * Engine.PHYSICS.FIXED_TIMESTEP := by
              field_simp
        _ < 1 * Engine.PHYSICS.FIXED_TIMESTEP := by
              exact mul_lt_mul_of_pos_right h1 hft
        _ = Engine.PHYSICS.FIXED_TIMESTEP := one_mul _
    rw [Engine.stepLoop, dif_neg (not_le.mpr hlt)]
    simp
  | succ n ih =>
    intro acc h0 hn
    have hge : Engine.PHYSICS.FIXED_TIMESTEP ≤ acc := by
      by_contra hlt
      push_neg at hlt
      have : acc / Engine.PHYSICS.FIXED_TIMESTEP < 1 := (div_lt_one hft).mpr hlt
      have : ⌊acc / Engine.PHYSICS.FIXED_TIMESTEP⌋₊ = 0 := Nat.floor_eq_zero.mpr this
      omega
    have hdiv : (acc - Engine.PHYSICS.FIXED_TIMESTEP) / Engine.PHYSICS.FIXED_TIMESTEP =
        acc / Engine.PHYSICS.FIXED_TIMESTEP - 1 := by
      field_simp
    have hfl : ⌊(acc - Engine.PHYSICS.FIXED_TIMESTEP) / Engine.PHYSICS.FIXED_TIMESTEP⌋₊ = n := by
      rw [hdiv, Nat.floor_sub_one, hn]
      omega
    have hrec := ih (acc - Engine.PHYSICS.FIXED_TIMESTEP) (by linarith) hfl
    rw [Engine.stepLoop, dif_pos hge, hrec]
    refine Prod.ext ?_ ?_
    · simp [List.replicate_succ]
    · push_cast
      ring_nf

/-- C4.  For a prior accumulator `a ∈ [0, FIXED_TIMESTEP)` and wall-clock
delta `d ≥ 0`, one `PhysicsEngine.update` call runs the fixed step exactly
`⌊(a + min d MAX_ACCUMULATOR) / FIXED_TIMESTEP⌋` times, each with
`dt = FIXED_TIMESTEP`, and leaves the accumulator at the remainder, which
is nonnegative and strictly below `FIXED_TIMESTEP`. -/
theorem C4_update_runs_floor_many_steps (a d : ℝ)
    (h0 : 0 ≤ a) (h1 : a < Engine.PHYSICS.FIXED_TIMESTEP) (h2 : 0 ≤ d) :
    Engine.engineUpdate a d =
      (List.replicate ⌊(a + min d Engine.PHYSICS.MAX_ACCUMULATOR) / Engine.PHYSICS.FIXED_TIMESTEP⌋₊
         Engine.PHYSICS.FIXED_TIMESTEP,
       (a + min d Engine.PHYSICS.MAX_ACCUMULATOR) -
         ⌊(a + min d Engine.PHYSICS.MAX_ACCUMULATOR) / Engine.PHYSICS.FIXED_TIMESTEP⌋₊ *
           Engine.PHYSICS.FIXED_TIMESTEP) ∧
    0 ≤ (a + min d Engine.PHYSICS.MAX_ACCUMULATOR) -
        ⌊(a + min d Engine.PHYSICS.MAX_ACCUMULATOR) / Engine.PHYSICS.FIXED_TIMESTEP⌋₊ *
          Engine.PHYSICS.FIXED_TIMESTEP ∧
    (a + min d Engine.PHYSICS.MAX_ACCUMULATOR) -
        ⌊(a + min d Engine.PHYSICS.MAX_ACCUMULATOR) / Engine.PHYSICS.FIXED_TIMESTEP⌋₊ *
          Engine.PHYSICS.FIXED_TIMESTEP < Engine.PHYSICS.FIXED_TIMESTEP := by
  have hft : (0:ℝ) < Engine.PHYSICS.FIXED_TIMESTEP := by
    norm_num [Engine.PHYSICS.FIXED_TIMESTEP]
  set total := a + min d Engine.PHYSICS.MAX_ACCUMULATOR with htotal
  have htot : 0 ≤ total := by
    have : (0:ℝ) ≤ min d Engine.PHYSICS.MAX_ACCUMULATOR :=
      le_min h2 (by norm_num [Engine.PHYSICS.MAX_ACCUMULATOR])
    linarith
  have hx0 : 0 ≤ total / Engine.PHYSICS.FIXED_TIMESTEP := by positivity
  have hle : (⌊total / Engine.PHYSICS.FIXED_TIMESTEP⌋₊ : ℝ) ≤ total / Engine.PHYSICS.FIXED_TIMESTEP :=
    Nat.floor_le hx0
  have hlt : total / Engine.PHYSICS.FIXED_TIMESTEP <
      (⌊total / Engine.PHYSICS.FIXED_TIMESTEP⌋₊ : ℝ) + 1 :=
    Nat.lt_floor_add_one _
  refine ⟨?_, ?_, ?_⟩
  · unfold Engine.engineUpdate
    exact stepLoop_spec _ total htot rfl
  · have := mul_le_mul_of_nonneg_right hle hft.le
    rw [div_mul_cancel₀ _ (ne_of_gt hft)] at this
    linarith
  · have := mul_lt_mul_of_pos_right hlt hft
    rw [div_mul_cancel₀ _ (ne_of_gt hft)] at this
    nlinarith [hft]

/-- Witness for C4: accumulator 1/480, delta 1/60 (clamped to itself);
total 3/160 holds exactly 4 fixed timesteps of 1/240 with remainder
1/480. -/
theorem C4_update_witness :
    (0:ℝ) ≤ 1/480 ∧ (1/480:ℝ) < Engine.PHYSICS.FIXED_TIMESTEP ∧ (0:ℝ) ≤ 1/60 ∧
    Engine.engineUpdate (1/480) (1/60) =
      (List.replicate 4 Engine.PHYSICS.FIXED_TIMESTEP, 1/480) := by
  have hmin : min (1/60 : ℝ) Engine.PHYSICS.MAX_ACCUMULATOR = 1/60 := by
    rw [min_eq_left]
    norm_num [Engine.PHYSICS.MAX_ACCUMULATOR]
  have hfl : ⌊((1/480 : ℝ) + min (1/60 : ℝ) Engine.PHYSICS.MAX_ACCUMULATOR) /
      Engine.PHYSICS.FIXED_TIMESTEP⌋₊ = 4 := by
    rw [hmin]
    rw [Nat.floor_eq_iff (by norm_num [Engine.PHYSICS.FIXED_TIMESTEP])]
    norm_num [Engine.PHYSICS.FIXED_TIMESTEP]
  have h := C4_update_runs_floor_many_steps (1/480) (1/60) (by norm_num)
    (by norm_num [Engine.PHYSICS.FIXED_TIMESTEP]) (by norm_num)
  refine ⟨by norm_num, by norm_num [Engine.PHYSICS.FIXED_TIMESTEP], by norm_num, ?_⟩
  rw [h.1, hfl, hmin]
  norm_num [Engine.PHYSICS.FIXED_TIMESTEP]

/-- C3.  A Settled body receiving no further impulses is a fixed point of
the per-body step in both variants: iterating `PhysicsEngine`'s per-body
step (`stepBody`) or `PhysicsDie.update` any number of times leaves the
whole state — in particular position, orientation and the reported face
value — unchanged. -/
theorem C3_settled_bodies_are_fixed_points {α : Type}
    (dt : ℝ) (b : Engine.RigidBody) (d : Dice.PhysicsDie α) (n : ℕ)
    (hb : b.isSettled = true) (hd : d.settled = true) :
    (Engine.stepBody dt)^[n] b = b ∧
    Engine.getD6Value ((Engine.stepBody dt)^[n] b) = Engine.getD6Value b ∧
    (Dice.PhysicsDie.update dt)^[n] d = d ∧
    Dice.PhysicsDie.getValue ((Dice.PhysicsDie.update dt)^[n] d) =
      Dice.PhysicsDie.getValue d := by
  have hstep : Engine.stepBody dt b = b := by
    unfold Engine.stepBody
    rw [if_pos hb]
  have hupd : Dice.PhysicsDie.update dt d = d := by
    unfold Dice.PhysicsDie.update
    rw [if_pos hd]
  have h1 := Function.iterate_fixed hstep n
  have h2 := Function.iterate_fixed hupd n
  exact ⟨h1, by rw [h1], h2, by rw [h2]⟩

/-- Witness for C3: a settled engine body resting at height 1/2 and a
settled die, iterated 5 steps at dt = 1/240. -/
theorem C3_settled_witness :
    (({ position := ⟨0, 1/2, 0⟩, quaternion := ⟨1, 0, 0, 0⟩,
        velocity := V3.zero, angularVelocity := V3.zero,
        mass := 1, inverseMass := 1, inertia := 1/6, inverseInertia := 6,
        force := V3.zero, torque := V3.zero,
        localVertices := Engine.D6_VERTICES, settleTimer := 3/10,
        isSettled := true, collisionRadius := 866/1000,
        halfSize := 1/2 } : Engine.RigidBody).isSettled = true) ∧
    (({ position := ⟨0, 1/2, 0⟩, velocity := V3.zero,
        quaternion := ⟨1, 0, 0, 0⟩, angularVelocity := V3.zero,
        settled := true, settleCounter := 4, size := 1,
        vertices := [], faceNormals := [⟨0, 1, 0⟩], faceValues := [6],
        collisionRadius := 866/1000, readBottom := false,
        restHeight := 1/2 } : Dice.PhysicsDie ℕ).settled = true) ∧
    (Engine.stepBody (1/240))^[5]
      { position := ⟨0, 1/2, 0⟩, quaternion := ⟨1, 0, 0, 0⟩,
        velocity := V3.zero, angularVelocity := V3.zero,
        mass := 1, inverseMass := 1, inertia := 1/6, inverseInertia := 6,
        force := V3.zero, torque := V3.zero,
        localVertices := Engine.D6_VERTICES, settleTimer := 3/10,
        isSettled := true, collisionRadius := 866/1000, halfSize := 1/2 } =
      { position := ⟨0, 1/2, 0⟩, quaternion := ⟨1, 0, 0, 0⟩,
        velocity := V3.zero, angularVelocity := V3.zero,
        mass := 1, inverseMass := 1, inertia := 1/6, inverseInertia := 6,
        force := V3.zero, torque := V3.zero,
        localVertices := Engine.D6_VERTICES, settleTimer := 3/10,
        isSettled := true, collisionRadius := 866/1000, halfSize := 1/2 } ∧
    (Dice.PhysicsDie.update (1/240))^[5]
      ({ position := ⟨0, 1/2, 0⟩, velocity := V3.zero,
         quaternion := ⟨1, 0, 0, 0⟩, angularVelocity := V3.zero,
         settled := true, settleCounter := 4, size := 1,
         vertices := [], faceNormals := [⟨0, 1, 0⟩], faceValues := [6],
         collisionRadius := 866/1000, readBottom := false,
         restHeight := 1/2 } : Dice.PhysicsDie ℕ) =
      { position := ⟨0, 1/2, 0⟩, velocity := V3.zero,
        quaternion := ⟨1, 0, 0, 0⟩, angularVelocity := V3.zero,
        settled := true, settleCounter := 4, size := 1,
        vertices := [], faceNormals := [⟨0, 1, 0⟩], faceValues := [6],
        collisionRadius := 866/1000, readBottom := false,
        restHeight := 1/2 } := by
  have h := @C3_settled_bodies_are_fixed_points ℕ (1/240)
    { position := ⟨0, 1/2, 0⟩, quaternion := ⟨1, 0, 0, 0⟩,
      velocity := V3.zero, angularVelocity := V3.zero,
      mass := 1, inverseMass := 1, inertia := 1/6, inverseInertia := 6,
      force := V3.zero, torque := V3.zero,
      localVertices := Engine.D6_VERTICES, settleTimer := 3/10,
      isSettled := true, collisionRadius := 866/1000, halfSize := 1/2 }
    { position := ⟨0, 1/2, 0⟩, velocity := V3.zero,
      quaternion := ⟨1, 0, 0, 0⟩, angularVelocity := V3.zero,
      settled := true, settleCounter := 4, size := 1,
      vertices := [], faceNormals := [⟨0, 1, 0⟩], faceValues := [6],
      collisionRadius := 866/1000, readBottom := false, restHeight := 1/2 }
    5 rfl rfl
  exact ⟨rfl, rfl, h.1, h.2.2.1⟩

/-- C9 (amended).  The ground-contact impulse denominator equals
`invMass + invInertia * ((cx-px)² + (cz-pz)²)`, hence is at least
`invMass` and strictly positive for every body with strictly positive
inverse mass and nonnegative inverse inertia — so no division by zero and
no infinite velocity can arise; the source accordingly contains no skip
guard and divides unconditionally. -/
theorem C9_ground_impulse_denominator_positive
    (b : Engine.RigidBody) (p : V3)
    (h1 : 0 < b.inverseMass) (h2 : 0 ≤ b.inverseInertia) :
    Engine.groundImpulseDenominator b p =
      b.inverseMass + b.inverseInertia *
        ((p.x - b.position.x) ^ 2 + (p.z - b.position.z) ^ 2) ∧
    b.inverseMass ≤ Engine.groundImpulseDenominator b p ∧
    0 < Engine.groundImpulseDenominator b p := by
  have heq : Engine.groundImpulseDenominator b p =
      b.inverseMass + b.inverseInertia *
        ((p.x - b.position.x) ^ 2 + (p.z - b.position.z) ^ 2) := by
    unfold Engine.groundImpulseDenominator
    ring
  refine ⟨heq, ?_, ?_⟩
  · rw [heq]
    nlinarith [sq_nonneg (p.x - b.position.x), sq_nonneg (p.z - b.position.z)]
  · rw [heq]
    nlinarith [sq_nonneg (p.x - b.position.x), sq_nonneg (p.z - b.position.z)]

/-- Witness for C9 at the near-zero-denominator body and its contact
vertex. -/
theorem C9_denominator_witness :
    (0:ℝ) < nearZeroDenomBody.inverseMass ∧
    (0:ℝ) ≤ nearZeroDenomBody.inverseInertia ∧
    0 < Engine.groundImpulseDenominator nearZeroDenomBody ⟨0, -1/10, 0⟩ := by
  refine ⟨by norm_num [nearZeroDenomBody], by norm_num [nearZeroDenomBody], ?_⟩
  exact (C9_ground_impulse_denominator_positive nearZeroDenomBody ⟨0, -1/10, 0⟩
    (by norm_num [nearZeroDenomBody]) (by norm_num [nearZeroDenomBody])).2.2

/-- C9 (counterexample to the claim as stated).  At a contact whose
impulse denominator is 1/1000000 — at-or-near zero — the source does NOT
skip impulse application: `resolveGroundCollision` applies the impulse and
changes the velocity (from (0,-1,0) to (0,7/20,0)). -/
theorem C9_near_zero_denominator_not_skipped :
    Engine.groundImpulseDenominator nearZeroDenomBody ⟨0, -1/10, 0⟩ = 1/1000000 ∧
    (Engine.resolveGroundCollision nearZeroDenomBody).velocity = ⟨0, 7/20, 0⟩ ∧
    (Engine.resolveGroundCollision nearZeroDenomBody).velocity ≠
      nearZeroDenomBody.velocity := by
  refine ⟨?_, ?_, ?_⟩
  · norm_num [Engine.groundImpulseDenominator, nearZeroDenomBody]
  · norm_num [Engine.resolveGroundCollision, Engine.RigidBody.getWorldVertices,
      Engine.RigidBody.localToWorld, Engine.groundVertexStep,
      Engine.RigidBody.getVelocityAtPoint, Engine.calculateCollisionImpulse,
      Engine.groundImpulseDenominator, Engine.calculateFrictionImpulse,
      Engine.RigidBody.applyImpulseAtPoint, Engine.applyContactDamping,
      Engine.PHYSICS.GROUND_Y, Engine.PHYSICS.PENETRATION_SLOP,
      Engine.PHYSICS.POSITION_CORRECTION, Engine.PHYSICS.RESTITUTION,
      Engine.PHYSICS.KINETIC_FRICTION, Engine.PHYSICS.CONTACT_DAMPING,
      nearZeroDenomBody, V3.zero, Real.sqrt_zero]
  · norm_num [Engine.resolveGroundCollision, Engine.RigidBody.getWorldVertices,
      Engine.RigidBody.localToWorld, Engine.groundVertexStep,
      Engine.RigidBody.getVelocityAtPoint, Engine.calculateCollisionImpulse,
      Engine.groundImpulseDenominator, Engine.calculateFrictionImpulse,
      Engine.RigidBody.applyImpulseAtPoint, Engine.applyContactDamping,
      Engine.PHYSICS.GROUND_Y, Engine.PHYSICS.PENETRATION_SLOP,
      Engine.PHYSICS.POSITION_CORRECTION, Engine.PHYSICS.RESTITUTION,
      Engine.PHYSICS.KINETIC_FRICTION, Engine.PHYSICS.CONTACT_DAMPING,
      nearZeroDenomBody, V3.zero, Real.sqrt_zero, V3.mk.injEq]

/-- `minWorldY` is the `minStep` fold of the world-vertex heights. -/
theorem minWorldY_eq_fold (b : Engine.RigidBody) :
    Engine.minWorldY b =
      b.localVertices.foldl
        (minStep (fun v => (Engine.RigidBody.localToWorld b v).y)) none := by
  unfold Engine.minWorldY Engine.RigidBody.getWorldVertices
  rw [List.foldl_map]
  rfl

/-- The strict-min fold commutes with shifting every candidate by `δ`. -/
theorem minStep_foldl_shift (δ : ℝ) (f g : V3 → ℝ) (hfg : ∀ v, f v = g v + δ) :
    ∀ (l : List V3) (acc : Option ℝ),
    l.foldl (minStep f) (Option.map (· + δ) acc) =
      Option.map (· + δ) (l.foldl (minStep g) acc) := by
  intro l
  induction l with
  | nil => intro acc; simp
  | cons v t ih =>
    intro acc
    rw [List.foldl_cons, List.foldl_cons]
    have h1 : minStep f (Option.map (· + δ) acc) v =
        Option.map (· + δ) (minStep g acc v) := by
      cases acc with
      | none => simp [minStep, hfg v]
      | some m =>
        show minStep f (some (m + δ)) v = Option.map (· + δ) (minStep g (some m) v)
        simp only [minStep, hfg v]
        by_cases h : g v < m
        · rw [if_pos h, if_pos (show g v + δ < m + δ by linarith)]
          simp
        · rw [if_neg h,
            if_neg (show ¬ g v + δ < m + δ by intro hc; exact h (by linarith))]
          simp
    rw [h1, ih]

/-- Shifting a body vertically shifts `minWorldY` by the same amount. -/
theorem minWorldY_shift (b : Engine.RigidBody) (δ : ℝ) :
    Engine.minWorldY { b with position := ⟨b.position.x, b.position.y + δ, b.position.z⟩ } =
      Option.map (· + δ) (Engine.minWorldY b) := by
  rw [minWorldY_eq_fold, minWorldY_eq_fold]
  have key : ∀ v : V3,
      (Engine.RigidBody.localToWorld
        { b with position := ⟨b.position.x, b.position.y + δ, b.position.z⟩ } v).y =
      (Engine.RigidBody.localToWorld b v).y + δ := by
    intro v
    simp only [Engine.RigidBody.localToWorld]
    ring
  have h := minStep_foldl_shift δ
    (fun v => (Engine.RigidBody.localToWorld
      { b with position := ⟨b.position.x, b.position.y + δ, b.position.z⟩ } v).y)
    (fun v => (Engine.RigidBody.localToWorld b v).y) key b.localVertices none
  simpa using h

/-- `snapToGround` only moves the body; every other field is kept. -/
theorem snapToGround_preserves (b : Engine.RigidBody) :
    (Engine.snapToGround b).velocity = b.velocity ∧
    (Engine.snapToGround b).angularVelocity = b.angularVelocity ∧
    (Engine.snapToGround b).quaternion = b.quaternion ∧
    (Engine.snapToGround b).settleTimer = b.settleTimer ∧
    (Engine.snapToGround b).isSettled = b.isSettled := by
  unfold Engine.snapToGround
  cases hmw : Engine.minWorldY b with
  | none => simp
  | some m =>
    by_cases h : m < Engine.PHYSICS.GROUND_Y + 1/100
    · simp only [if_pos h]
      simp
    · simp only [if_neg h]
      simp

/-- When a body below both thresholds reaches the settling duration,
`checkSettling` zeroes the velocities, snaps to the ground and marks it
settled (shape of the result). -/
theorem checkSettling_settles (b : Engine.RigidBody) (dt : ℝ)
    (hsp : b.getSpeed < Engine.PHYSICS.VELOCITY_THRESHOLD)
    (hang : b.getAngularSpeed < Engine.PHYSICS.ANGULAR_THRESHOLD)
    (htime : Engine.PHYSICS.SETTLING_TIME ≤ b.settleTimer + dt) :
    Engine.checkSettling b dt =
      { Engine.snapToGround
          { b with settleTimer := b.settleTimer + dt,
                   velocity := V3.zero, angularVelocity := V3.zero }
        with isSettled := true } := by
  have hcond : b.getSpeed < Engine.PHYSICS.VELOCITY_THRESHOLD ∧
      b.getAngularSpeed < Engine.PHYSICS.ANGULAR_THRESHOLD := ⟨hsp, hang⟩
  have htime2 : ({ b with settleTimer := b.settleTimer + dt } :
      Engine.RigidBody).settleTimer ≥ Engine.PHYSICS.SETTLING_TIME := htime
  simp only [Engine.checkSettling, if_pos hcond, if_pos htime2]

/-- C2 (amended).  In the `PhysicsEngine` variant, when a body below both
settle thresholds reaches the settling duration, the settling step zeroes
both velocities and marks the body Settled; it leaves the orientation
quaternion unchanged (there is no rotation snap in this variant — the
face-alignment rotation exists only in `PhysicsDie.snapToFace`), and it
translates the body so its lowest vertex touches the ground exactly when
that vertex is within 0.01 of the ground, leaving the position unchanged
otherwise. -/
theorem C2_engine_settling_amended (b : Engine.RigidBody) (dt : ℝ)
    (hsp : b.getSpeed < Engine.PHYSICS.VELOCITY_THRESHOLD)
    (hang : b.getAngularSpeed < Engine.PHYSICS.ANGULAR_THRESHOLD)
    (htime : Engine.PHYSICS.SETTLING_TIME ≤ b.settleTimer + dt) :
    (Engine.checkSettling b dt).velocity = V3.zero ∧
    (Engine.checkSettling b dt).angularVelocity = V3.zero ∧
    (Engine.checkSettling b dt).isSettled = true ∧
    (Engine.checkSettling b dt).quaternion = b.quaternion ∧
    (∀ m : ℝ, Engine.minWorldY b = some m →
      (m < Engine.PHYSICS.GROUND_Y + 1/100 →
        Engine.minWorldY (Engine.checkSettling b dt) = some Engine.PHYSICS.GROUND_Y) ∧
      (¬ m < Engine.PHYSICS.GROUND_Y + 1/100 →
        (Engine.checkSettling b dt).position = b.position)) := by
  rw [checkSettling_settles b dt hsp hang htime]
  set b2 : Engine.RigidBody :=
    { b with settleTimer := b.settleTimer + dt,
             velocity := V3.zero, angularVelocity := V3.zero } with hb2
  have hpres := snapToGround_preserves b2
  refine ⟨hpres.1, hpres.2.1, rfl, hpres.2.2.1, ?_⟩
  intro m hm
  have hm2 : Engine.minWorldY b2 = some m := hm
  constructor
  · intro hlt
    have : ({ Engine.snapToGround b2 with isSettled := true } :
        Engine.RigidBody).position = (Engine.snapToGround b2).position := rfl
    show Engine.minWorldY { Engine.snapToGround b2 with isSettled := true } = _
    have hsame : Engine.minWorldY { Engine.snapToGround b2 with isSettled := true } =
        Engine.minWorldY (Engine.snapToGround b2) := rfl
    rw [hsame]
    have hsnap : Engine.snapToGround b2 =
        { b2 with position := ⟨b2.position.x,
            b2.position.y + (Engine.PHYSICS.GROUND_Y - m), b2.position.z⟩ } := by
      unfold Engine.snapToGround
      rw [hm2]
      simp only [if_pos hlt]
    rw [hsnap]
    rw [minWorldY_shift b2 (Engine.PHYSICS.GROUND_Y - m), hm2]
    simp only [Option.map]
    congr 1
    ring
  · intro hge
    show ({ Engine.snapToGround b2 with isSettled := true } :
        Engine.RigidBody).position = b.position
    have : (Engine.snapToGround b2).position = b2.position := by
      unfold Engine.snapToGround
      rw [hm2]
      simp only [if_neg hge]
    rw [show ({ Engine.snapToGround b2 with isSettled := true } :
        Engine.RigidBody).position = (Engine.snapToGround b2).position from rfl, this]

/-- C2 (counterexample to the claim as stated).  The tilted resting body
satisfies every settling premise (below both thresholds, timer at the
settling duration), and `PhysicsEngine.checkSettling` marks it Settled —
but its orientation is left exactly as it was: no rotated face normal
points exactly up (the best alignment is 24/25), and its lowest vertex
stays at height 2/25, not on the ground. -/
theorem C2_settling_does_not_snap_counterexample :
    tiltedRestingBody.getSpeed < Engine.PHYSICS.VELOCITY_THRESHOLD ∧
    tiltedRestingBody.getAngularSpeed < Engine.PHYSICS.ANGULAR_THRESHOLD ∧
    Engine.PHYSICS.SETTLING_TIME ≤ tiltedRestingBody.settleTimer + 1/240 ∧
    (Engine.checkSettling tiltedRestingBody (1/240)).isSettled = true ∧
    (Engine.checkSettling tiltedRestingBody (1/240)).quaternion = ⟨4/5, 0, 0, 3/5⟩ ∧
    (∀ n ∈ Engine.D6_FACE_NORMALS,
      (rotateByQuaternion n
        (Engine.checkSettling tiltedRestingBody (1/240)).quaternion).y ≠ 1) ∧
    Engine.minWorldY (Engine.checkSettling tiltedRestingBody (1/240)) = some (2/25) ∧
    (2/25 : ℝ) ≠ Engine.PHYSICS.GROUND_Y := by
  have hsp : tiltedRestingBody.getSpeed < Engine.PHYSICS.VELOCITY_THRESHOLD := by
    norm_num [Engine.RigidBody.getSpeed, tiltedRestingBody, V3.zero,
      Real.sqrt_zero, Engine.PHYSICS.VELOCITY_THRESHOLD]
  have hang : tiltedRestingBody.getAngularSpeed < Engine.PHYSICS.ANGULAR_THRESHOLD := by
    norm_num [Engine.RigidBody.getAngularSpeed, tiltedRestingBody, V3.zero,
      Real.sqrt_zero, Engine.PHYSICS.ANGULAR_THRESHOLD]
  have htime : Engine.PHYSICS.SETTLING_TIME ≤ tiltedRestingBody.settleTimer + 1/240 := by
    norm_num [tiltedRestingBody, Engine.PHYSICS.SETTLING_TIME]
  have hmw : Engine.minWorldY tiltedRestingBody = some (2/25) := by
    norm_num [Engine.minWorldY, Engine.RigidBody.getWorldVertices,
      Engine.RigidBody.localToWorld, Engine.D6_VERTICES, Engine.D6.HALF_SIZE,
      Engine.D6.SIZE, tiltedRestingBody]
  have hshape := checkSettling_settles tiltedRestingBody (1/240) hsp hang htime
  have hq : (Engine.checkSettling tiltedRestingBody (1/240)).quaternion =
      ⟨4/5, 0, 0, 3/5⟩ := by
    rw [hshape]
    have := (snapToGround_preserves
      { tiltedRestingBody with
          settleTimer := tiltedRestingBody.settleTimer + 1/240,
          velocity := V3.zero, angularVelocity := V3.zero }).2.2.1
    exact this
  refine ⟨hsp, hang, htime, by rw [hshape], hq, ?_, ?_, ?_⟩
  · intro n hn
    rw [hq]
    simp only [Engine.D6_FACE_NORMALS, List.mem_cons, List.not_mem_nil, or_false] at hn
    rcases hn with rfl | rfl | rfl | rfl | rfl | rfl <;>
      norm_num [rotateByQuaternion]
  · rw [hshape]
    set b2 : Engine.RigidBody :=
      { tiltedRestingBody with
          settleTimer := tiltedRestingBody.settleTimer + 1/240,
          velocity := V3.zero, angularVelocity := V3.zero } with hb2
    have hm2 : Engine.minWorldY b2 = some (2/25) := hmw
    have hnosnap : Engine.snapToGround b2 = b2 := by
      unfold Engine.snapToGround
      rw [hm2]
      simp only [if_neg (show ¬ (2/25 : ℝ) < Engine.PHYSICS.GROUND_Y + 1/100 by
        norm_num [Engine.PHYSICS.GROUND_Y])]
    have hfinal : Engine.minWorldY
        ({ Engine.snapToGround b2 with isSettled := true } : Engine.RigidBody) =
        Engine.minWorldY (Engine.snapToGround b2) := rfl
    rw [hfinal, hnosnap]
    exact hm2
  · norm_num [Engine.PHYSICS.GROUND_Y]

/-- Witness for C2 (amended) at the flat resting body: the settling step
zeroes the velocities, keeps the identity orientation, settles the body
and leaves its lowest vertex exactly on the ground. -/
theorem C2_settling_witness :
    flatRestingBody.getSpeed < Engine.PHYSICS.VELOCITY_THRESHOLD ∧
    flatRestingBody.getAngularSpeed < Engine.PHYSICS.ANGULAR_THRESHOLD ∧
    Engine.PHYSICS.SETTLING_TIME ≤ flatRestingBody.settleTimer + 1/240 ∧
    Engine.minWorldY flatRestingBody = some 0 ∧
    (Engine.checkSettling flatRestingBody (1/240)).velocity = V3.zero ∧
    (Engine.checkSettling flatRestingBody (1/240)).angularVelocity = V3.zero ∧
    (Engine.checkSettling flatRestingBody (1/240)).isSettled = true ∧
    (Engine.checkSettling flatRestingBody (1/240)).quaternion = flatRestingBody.quaternion ∧
    Engine.minWorldY (Engine.checkSettling flatRestingBody (1/240)) =
      some Engine.PHYSICS.GROUND_Y := by
  have hsp : flatRestingBody.getSpeed < Engine.PHYSICS.VELOCITY_THRESHOLD := by
    norm_num [Engine.RigidBody.getSpeed, flatRestingBody, V3.zero,
      Real.sqrt_zero, Engine.PHYSICS.VELOCITY_THRESHOLD]
  have hang : flatRestingBody.getAngularSpeed < Engine.PHYSICS.ANGULAR_THRESHOLD := by
    norm_num [Engine.RigidBody.getAngularSpeed, flatRestingBody, V3.zero,
      Real.sqrt_zero, Engine.PHYSICS.ANGULAR_THRESHOLD]
  have htime : Engine.PHYSICS.SETTLING_TIME ≤ flatRestingBody.settleTimer + 1/240 := by
    norm_num [flatRestingBody, Engine.PHYSICS.SETTLING_TIME]
  have hmw : Engine.minWorldY flatRestingBody = some 0 := by
    norm_num [Engine.minWorldY, Engine.RigidBody.getWorldVertices,
      Engine.RigidBody.localToWorld, Engine.D6_VERTICES, Engine.D6.HALF_SIZE,
      Engine.D6.SIZE, flatRestingBody]
  have h := C2_engine_settling_amended flatRestingBody (1/240) hsp hang htime
  have hsnap := (h.2.2.2.2 0 hmw).1
    (by norm_num [Engine.PHYSICS.GROUND_Y])
  exact ⟨hsp, hang, htime, hmw, h.1, h.2.1, h.2.2.1, h.2.2.2.1, hsnap⟩

/-- C1 (counterexample to the claim as stated).  `sphereSettledA` and
`sphereSlowB` are in contact (centre distance 1/2 < 13/10), the settled
flag of A is set, and the contact is resolved (the bodies are pushed
apart), yet because the relative speed 3/10 does not exceed the 0.5 wake
threshold, A's settled flag remains set and its settle timer is not
reset. -/
theorem C1_slow_contact_keeps_settled :
    (sphereSlowB.position.x - sphereSettledA.position.x) *
        (sphereSlowB.position.x - sphereSettledA.position.x) +
      (sphereSlowB.position.y - sphereSettledA.position.y) *
        (sphereSlowB.position.y - sphereSettledA.position.y) +
      (sphereSlowB.position.z - sphereSettledA.position.z) *
        (sphereSlowB.position.z - sphereSettledA.position.z) <
      (sphereSettledA.halfSize * (13/10) + sphereSlowB.halfSize * (13/10)) *
        (sphereSettledA.halfSize * (13/10) + sphereSlowB.halfSize * (13/10)) ∧
    sphereSettledA.isSettled = true ∧
    (Engine.resolveSphereCollision sphereSettledA sphereSlowB).1.position ≠
      sphereSettledA.position ∧
    (Engine.resolveSphereCollision sphereSettledA sphereSlowB).1.isSettled = true ∧
    (Engine.resolveSphereCollision sphereSettledA sphereSlowB).1.settleTimer = 7/100 := by
  have hsq1 : Real.sqrt ((1:ℝ)/4) = 1/2 := by
    rw [show (1/4 : ℝ) = (1/2)^2 by norm_num, Real.sqrt_sq (by norm_num)]
  have hsq2 : Real.sqrt ((9:ℝ)/100) = 3/10 := by
    rw [show (9/100 : ℝ) = (3/10)^2 by norm_num, Real.sqrt_sq (by norm_num)]
  refine ⟨by norm_num [sphereSettledA, sphereSlowB], rfl, ?_, ?_, ?_⟩ <;>
    norm_num [Engine.resolveSphereCollision, sphereSettledA, sphereSlowB,
      Engine.PHYSICS.DICE_VELOCITY_THRESHOLD, Engine.PHYSICS.DICE_RESTITUTION,
      V3.zero, hsq1, hsq2, V3.mk.injEq]

/-- C1 (amended).  Body-to-body resolution wakes a settled body as
follows: in the sphere resolver (`resolveSphereCollision`), a contact on a
settled body clears its settled flag and resets its settle timer exactly
when the relative speed exceeds the 0.5 wake threshold; in the
vertex-based resolver (`DiceCollisionSystem.resolveCollision`), any
resolved non-separating contact unconditionally clears both dice's settled
flags and resets both settle counters to 0. -/
theorem C1_contact_wake_amended :
    (∀ A B : Engine.RigidBody,
      ¬ ((B.position.x - A.position.x) * (B.position.x - A.position.x) +
          (B.position.y - A.position.y) * (B.position.y - A.position.y) +
          (B.position.z - A.position.z) * (B.position.z - A.position.z) ≥
         (A.halfSize * (13/10) + B.halfSize * (13/10)) *
           (A.halfSize * (13/10) + B.halfSize * (13/10))) →
      ¬ ((B.position.x - A.position.x) * (B.position.x - A.position.x) +
          (B.position.y - A.position.y) * (B.position.y - A.position.y) +
          (B.position.z - A.position.z) * (B.position.z - A.position.z) < 1/10000) →
      Real.sqrt ((A.velocity.x - B.velocity.x) * (A.velocity.x - B.velocity.x) +
        (A.velocity.y - B.velocity.y) * (A.velocity.y - B.velocity.y) +
        (A.velocity.z - B.velocity.z) * (A.velocity.z - B.velocity.z)) > 1/2 →
      (A.isSettled = true →
        (Engine.resolveSphereCollision A B).1.isSettled = false ∧
        (Engine.resolveSphereCollision A B).1.settleTimer = 0) ∧
      (B.isSettled = true →
        (Engine.resolveSphereCollision A B).2.isSettled = false ∧
        (Engine.resolveSphereCollision A B).2.settleTimer = 0)) ∧
    (∀ (dieA dieB : Dice.PhysicsDie ℕ) (depth : ℝ) (normal contactPoint : V3),
      ¬ Dice.resolveCollisionNormalVel dieA dieB depth normal contactPoint > 0 →
      (Dice.resolveCollision dieA dieB depth normal contactPoint).1.settled = false ∧
      (Dice.resolveCollision dieA dieB depth normal contactPoint).1.settleCounter = 0 ∧
      (Dice.resolveCollision dieA dieB depth normal contactPoint).2.settled = false ∧
      (Dice.resolveCollision dieA dieB depth normal contactPoint).2.settleCounter = 0) := by
  constructor
  · intro A B hc1 hc2 hwake
    simp only [Engine.resolveSphereCollision]
    rw [if_neg hc1, if_neg hc2]
    constructor
    · intro hA
      rw [if_pos hwake, if_pos hA]
      split_ifs <;> simp
    · intro hB
      rw [if_pos hwake, if_pos hB]
      split_ifs <;> simp
  · intro dieA dieB depth normal contactPoint h
    simp only [Dice.resolveCollision]
    rw [if_neg h]
    simp

/-- Witness for C1 (amended): a fast sphere contact on `sphereSettledA`
(relative speed 1) and a non-separating vertex contact on `dieSettledA`. -/
theorem C1_contact_wake_witness :
    sphereSettledA.isSettled = true ∧
    (Engine.resolveSphereCollision sphereSettledA sphereFastB).1.isSettled = false ∧
    (Engine.resolveSphereCollision sphereSettledA sphereFastB).1.settleTimer = 0 ∧
    ¬ Dice.resolveCollisionNormalVel dieSettledA dieMovingB (1/10) ⟨-1, 0, 0⟩
        ⟨1/2, 0, 0⟩ > 0 ∧
    (Dice.resolveCollision dieSettledA dieMovingB (1/10) ⟨-1, 0, 0⟩
        ⟨1/2, 0, 0⟩).1.settled = false ∧
    (Dice.resolveCollision dieSettledA dieMovingB (1/10) ⟨-1, 0, 0⟩
        ⟨1/2, 0, 0⟩).1.settleCounter = 0 := by
  have hnv : ¬ Dice.resolveCollisionNormalVel dieSettledA dieMovingB (1/10)
      ⟨-1, 0, 0⟩ ⟨1/2, 0, 0⟩ > 0 := by
    norm_num [Dice.resolveCollisionNormalVel, dieSettledA, dieMovingB,
      V3.zero, V3.smul, V3.add, V3.sub, V3.cross, V3.dot]
  have hsq1 : Real.sqrt ((1:ℝ)) = 1 := Real.sqrt_one
  have h := C1_contact_wake_amended
  have hsphere := h.1 sphereSettledA sphereFastB
    (by norm_num [sphereSettledA, sphereSlowB, sphereFastB])
    (by norm_num [sphereSettledA, sphereSlowB, sphereFastB])
    (by norm_num [sphereSettledA, sphereSlowB, sphereFastB, V3.zero, hsq1])
  have hdice := h.2 dieSettledA dieMovingB (1/10) ⟨-1, 0, 0⟩ ⟨1/2, 0, 0⟩ hnv
  exact ⟨rfl, (hsphere.1 rfl).1, (hsphere.1 rfl).2, hnv, hdice.1, hdice.2.1⟩

/-- C5 (amended).  When a step leaves a body above either settle
threshold, the `PhysicsEngine` variant resets the settle timer to 0, while
the `PhysicsDie` variant only decrements its settle counter by one
(clamped at 0); applying an external impulse (`PhysicsDie.applyImpulse`)
resets the counter to 0 and clears the settled flag. -/
theorem C5_settle_reset_amended :
    (∀ (b : Engine.RigidBody) (dt : ℝ),
      (Engine.PHYSICS.VELOCITY_THRESHOLD ≤ b.getSpeed ∨
       Engine.PHYSICS.ANGULAR_THRESHOLD ≤ b.getAngularSpeed) →
      (Engine.checkSettling b dt).settleTimer = 0) ∧
    (∀ (d : Dice.PhysicsDie ℕ) (info : Dice.ContactInfo),
      (Dice.settleSpeedThreshold ≤ d.velocity.length ∨
       Dice.settleAngSpeedThreshold ≤ d.angularVelocity.length) →
      (Dice.PhysicsDie.settleBlock d info).settleCounter =
        max 0 (d.settleCounter - 1)) ∧
    (∀ (d : Dice.PhysicsDie ℕ) (force torque : V3),
      (d.applyImpulse force torque).settled = false ∧
      (d.applyImpulse force torque).settleCounter = 0) := by
  refine ⟨?_, ?_, ?_⟩
  · intro b dt h
    have hneg : ¬ (b.getSpeed < Engine.PHYSICS.VELOCITY_THRESHOLD ∧
        b.getAngularSpeed < Engine.PHYSICS.ANGULAR_THRESHOLD) := by
      rcases h with h | h
      · exact fun hc => absurd hc.1 (not_lt.mpr h)
      · exact fun hc => absurd hc.2 (not_lt.mpr h)
    simp only [Engine.checkSettling, if_neg hneg]
  · intro d info h
    have hneg : ¬ (d.velocity.length < Dice.settleSpeedThreshold ∧
        d.angularVelocity.length < Dice.settleAngSpeedThreshold ∧
        Dice.PhysicsDie.getFlatness d > Dice.settleFlatnessThreshold ∧
        info.isOnGround) := by
      rcases h with h | h
      · exact fun hc => absurd hc.1 (not_lt.mpr h)
      · exact fun hc => absurd hc.2.1 (not_lt.mpr h)
    simp only [Dice.PhysicsDie.settleBlock, if_neg hneg]
  · intro d force torque
    exact ⟨rfl, rfl⟩

/-- Witness for C5 (amended), at `movingBody` and `counterDie` (both moving
at speed 1, above every threshold). -/
theorem C5_settle_reset_witness :
    Engine.PHYSICS.VELOCITY_THRESHOLD ≤ movingBody.getSpeed ∧
    (Engine.checkSettling movingBody (1/240)).settleTimer = 0 ∧
    Dice.settleSpeedThreshold ≤ counterDie.velocity.length ∧
    (Dice.PhysicsDie.settleBlock counterDie ⟨none, none, 0⟩).settleCounter =
      max 0 (counterDie.settleCounter - 1) ∧
    (counterDie.applyImpulse ⟨1, 0, 0⟩ ⟨0, 1, 0⟩).settled = false ∧
    (counterDie.applyImpulse ⟨1, 0, 0⟩ ⟨0, 1, 0⟩).settleCounter = 0 := by
  have hsp : Engine.PHYSICS.VELOCITY_THRESHOLD ≤ movingBody.getSpeed := by
    simp only [Engine.RigidBody.getSpeed, movingBody]
    rw [show (1:ℝ) * 1 + 0 * 0 + 0 * 0 = 1 by norm_num, Real.sqrt_one]
    norm_num [Engine.PHYSICS.VELOCITY_THRESHOLD]
  have hds : Dice.settleSpeedThreshold ≤ counterDie.velocity.length := by
    simp only [V3.length, V3.lengthSq, counterDie]
    rw [show (1:ℝ) * 1 + 0 * 0 + 0 * 0 = 1 by norm_num, Real.sqrt_one]
    norm_num [Dice.settleSpeedThreshold]
  have h := C5_settle_reset_amended
  exact ⟨hsp, h.1 movingBody (1/240) (Or.inl hsp), hds,
    h.2.1 counterDie ⟨none, none, 0⟩ (Or.inl hds),
    (h.2.2 counterDie ⟨1, 0, 0⟩ ⟨0, 1, 0⟩).1,
    (h.2.2 counterDie ⟨1, 0, 0⟩ ⟨0, 1, 0⟩).2⟩

/-- C5 (counterexample to the claim as stated).  One full
`PhysicsDie.update` step on `counterDie`: the post-integration speed
(√(37581349/36000000) ≈ 1.02) exceeds the 0.1 settle threshold, yet the
settle counter afterwards is 1, not 0 — the code decrements instead of
resetting. -/
theorem C5_speeding_die_counter_not_reset :
    (Dice.PhysicsDie.wallBlock
        (Dice.PhysicsDie.groundBlock
          (Dice.PhysicsDie.integrateBlock counterDie (1/120)) (1/120)).1).velocity =
      ⟨199/200, -1393/6000, 0⟩ ∧
    Dice.settleSpeedThreshold ≤ V3.length ⟨199/200, -1393/6000, 0⟩ ∧
    (Dice.PhysicsDie.update (1/120) counterDie).settleCounter = 1 ∧
    (1:ℝ) ≠ 0 := by
  have hz : Real.sqrt ((0:ℝ) * 0 + 0 * 0 + 0 * 0) = 0 := by
    rw [show (0:ℝ) * 0 + 0 * 0 + 0 * 0 = 0 by norm_num, Real.sqrt_zero]
  have habs1 : |(199:ℝ)/24000| = 199/24000 := abs_of_nonneg (by norm_num)
  refine ⟨?_, ?_, ?_, by norm_num⟩
  · norm_num [Dice.PhysicsDie.wallBlock, Dice.PhysicsDie.groundBlock,
      Dice.PhysicsDie.integrateBlock, Dice.PhysicsDie.applyDamping,
      Dice.PhysicsDie.getGroundContactInfo, Dice.PhysicsDie.applyGravityTorque,
      Dice.ContactInfo.penetration, Dice.ContactInfo.isOnGround,
      Dice.PhysicsDie.sign, counterDie, V3.zero, V3.length, V3.lengthSq,
      V3.add, V3.sub, V3.smul, V3.cross, rotateByQuaternion,
      Dice.gravity, Dice.linearDamping, Dice.angularDamping, Dice.bounds,
      Dice.minBounceVelocity, Dice.restitution, Dice.groundFriction,
      Dice.bounceAngularReduction, Real.sqrt_zero, hz, habs1, abs_zero, max_def]
  · simp only [V3.length, V3.lengthSq]
    rw [Real.le_sqrt' (by norm_num [Dice.settleSpeedThreshold])]
    norm_num [Dice.settleSpeedThreshold]
  · norm_num [Dice.PhysicsDie.update, Dice.PhysicsDie.wallBlock,
      Dice.PhysicsDie.groundBlock, Dice.PhysicsDie.integrateBlock,
      Dice.PhysicsDie.applyDamping, Dice.PhysicsDie.getGroundContactInfo,
      Dice.PhysicsDie.applyGravityTorque, Dice.PhysicsDie.settleBlock,
      Dice.PhysicsDie.getFlatness, Dice.ContactInfo.penetration,
      Dice.ContactInfo.isOnGround, Dice.PhysicsDie.sign, counterDie,
      V3.zero, V3.length, V3.lengthSq, V3.add, V3.sub, V3.smul, V3.cross,
      rotateByQuaternion, Dice.gravity, Dice.linearDamping,
      Dice.angularDamping, Dice.bounds, Dice.minBounceVelocity,
      Dice.restitution, Dice.groundFriction, Dice.bounceAngularReduction,
      Dice.settleSpeedThreshold, Dice.settleAngSpeedThreshold,
      Dice.settleFlatnessThreshold, Dice.settleFramesRequired,
      Real.sqrt_zero, hz, habs1, abs_zero, max_def]

/-- Spec of the argmax loop of `getValue` for a `some` accumulator: either
no candidate beats the running best and the running result survives, or
the first best-beating maximum of the list is returned. -/
theorem getValueGo_some_spec {α : Type} (dir : ℝ) (q : Quat) :
    ∀ (l : List (V3 × Option α)) (b : ℝ) (res : Option α),
      (Dice.PhysicsDie.getValueGo dir q l (some b) res = res ∧
        ∀ p ∈ l, (rotateByQuaternion p.1 q).y * dir ≤ b) ∨
      (∃ p ∈ l, Dice.PhysicsDie.getValueGo dir q l (some b) res = p.2 ∧
        b < (rotateByQuaternion p.1 q).y * dir ∧
        ∀ p2 ∈ l, (rotateByQuaternion p2.1 q).y * dir ≤
          (rotateByQuaternion p.1 q).y * dir) := by
  intro l
  induction l with
  | nil =>
    intro b res
    left
    exact ⟨rfl, by simp⟩
  | cons hd t ih =>
    intro b res
    obtain ⟨n, v⟩ := hd
    by_cases h : (rotateByQuaternion n q).y * dir > b
    · have hstep : Dice.PhysicsDie.getValueGo dir q ((n, v) :: t) (some b) res =
          Dice.PhysicsDie.getValueGo dir q t (some ((rotateByQuaternion n q).y * dir)) v := by
        simp only [Dice.PhysicsDie.getValueGo, if_pos h]
      rcases ih ((rotateByQuaternion n q).y * dir) v with ⟨heq, hall⟩ | ⟨p, hp, heq, hlt, hall⟩
      · right
        refine ⟨(n, v), List.mem_cons_self _ _, by rw [hstep, heq], h, ?_⟩
        intro p2 hp2
        rcases List.mem_cons.mp hp2 with rfl | hp2
        · exact le_refl _
        · exact hall p2 hp2
      · right
        refine ⟨p, List.mem_cons_of_mem _ hp, by rw [hstep, heq], lt_trans h hlt, ?_⟩
        intro p2 hp2
        rcases List.mem_cons.mp hp2 with rfl | hp2
        · exact le_of_lt hlt
        · exact hall p2 hp2
    · have hstep : Dice.PhysicsDie.getValueGo dir q ((n, v) :: t) (some b) res =
          Dice.PhysicsDie.getValueGo dir q t (some b) res := by
        simp only [Dice.PhysicsDie.getValueGo, if_neg h]
      rcases ih b res with ⟨heq, hall⟩ | ⟨p, hp, heq, hlt, hall⟩
      · left
        refine ⟨by rw [hstep, heq], ?_⟩
        intro p2 hp2
        rcases List.mem_cons.mp hp2 with rfl | hp2
        · exact not_lt.mp h
        · exact hall p2 hp2
      · right
        refine ⟨p, List.mem_cons_of_mem _ hp, by rw [hstep, heq], hlt, ?_⟩
        intro p2 hp2
        rcases List.mem_cons.mp hp2 with rfl | hp2
        · exact le_of_lt (lt_of_le_of_lt (not_lt.mp h) hlt)
        · exact hall p2 hp2

/-- Spec of the full argmax loop from the `-Infinity` start: on a nonempty
list it returns the paired entry of a maximising element. -/
theorem getValueGo_none_spec {α : Type} (dir : ℝ) (q : Quat)
    (l : List (V3 × Option α)) (res : Option α) (hne : l ≠ []) :
    ∃ p ∈ l, Dice.PhysicsDie.getValueGo dir q l none res = p.2 ∧
      ∀ p2 ∈ l, (rotateByQuaternion p2.1 q).y * dir ≤
        (rotateByQuaternion p.1 q).y * dir := by
  obtain ⟨⟨n, v⟩, t, rfl⟩ : ∃ hd t, l = hd :: t := by
    cases l with
    | nil => exact absurd rfl hne
    | cons hd t => exact ⟨hd, t, rfl⟩
  have hstep : Dice.PhysicsDie.getValueGo dir q ((n, v) :: t) none res =
      Dice.PhysicsDie.getValueGo dir q t (some ((rotateByQuaternion n q).y * dir)) v := rfl
  rcases getValueGo_some_spec dir q t ((rotateByQuaternion n q).y * dir) v with
    ⟨heq, hall⟩ | ⟨p, hp, heq, hlt, hall⟩
  · refine ⟨(n, v), List.mem_cons_self _ _, by rw [hstep, heq], ?_⟩
    intro p2 hp2
    rcases List.mem_cons.mp hp2 with rfl | hp2
    · exact le_refl _
    · exact hall p2 hp2
  · refine ⟨p, List.mem_cons_of_mem _ hp, by rw [hstep, heq], ?_⟩
    intro p2 hp2
    rcases List.mem_cons.mp hp2 with rfl | hp2
    · exact le_of_lt hlt
    · exact hall p2 hp2

/-- With equally long lists, every element of `valuePairs` is an indexed
pair of a normal and its (defined) face value. -/
theorem valuePairs_mem_index {α : Type} :
    ∀ (ns : List V3) (vs : List α), ns.length = vs.length →
    ∀ p ∈ Dice.PhysicsDie.valuePairs ns vs,
      ∃ (i : ℕ) (hn : i < ns.length) (hv : i < vs.length),
        p = (ns.get ⟨i, hn⟩, some (vs.get ⟨i, hv⟩)) := by
  intro ns
  induction ns with
  | nil => intro vs _ p hp; simp [Dice.PhysicsDie.valuePairs] at hp
  | cons n nt ih =>
    intro vs hlen p hp
    cases vs with
    | nil => simp at hlen
    | cons v vt =>
      simp only [Dice.PhysicsDie.valuePairs, List.mem_cons] at hp
      rcases hp with rfl | hp
      · exact ⟨0, by simp, by simp, rfl⟩
      · obtain ⟨i, hn, hv, rfl⟩ := ih vt (by simpa using hlen) p hp
        exact ⟨i + 1, by simpa using Nat.succ_lt_succ hn,
          by simpa using Nat.succ_lt_succ hv, rfl⟩

/-- Conversely, each indexed pair of a normal and its value is an element
of `valuePairs`. -/
theorem valuePairs_index_mem {α : Type} :
    ∀ (ns : List V3) (vs : List α), ns.length = vs.length →
    ∀ (i : ℕ) (hn : i < ns.length) (hv : i < vs.length),
      (ns.get ⟨i, hn⟩, some (vs.get ⟨i, hv⟩)) ∈ Dice.PhysicsDie.valuePairs ns vs := by
  intro ns
  induction ns with
  | nil => intro vs _ i hn; simp at hn
  | cons n nt ih =>
    intro vs hlen i hn hv
    cases vs with
    | nil => simp at hlen
    | cons v vt =>
      cases i with
      | zero => simp [Dice.PhysicsDie.valuePairs]
      | succ j =>
        simp only [Dice.PhysicsDie.valuePairs, List.mem_cons]
        right
        exact ih vt (by simpa using hlen) j (by simpa using hn) (by simpa using hv)

/-- `valuePairs` is nonempty whenever the normals are. -/
theorem valuePairs_ne_nil {α : Type} (ns : List V3) (vs : List α)
    (h : ns ≠ []) : Dice.PhysicsDie.valuePairs ns vs ≠ [] := by
  cases ns with
  | nil => exact absurd rfl h
  | cons n nt => cases vs <;> simp [Dice.PhysicsDie.valuePairs]

/-- C7.  For a die whose `faceNormals` are nonempty and match `faceValues`
in length, `getValue` returns `some` of a declared face value — never
`undefined` — and the returned value is paired (by index) with a face
normal whose orientation-rotated dot product with world-up is largest
(smallest when `readBottom` is set). -/
theorem C7_getValue_is_declared_argmax {α : Type} (d : Dice.PhysicsDie α)
    (hne : d.faceNormals ≠ [])
    (hlen : d.faceNormals.length = d.faceValues.length) :
    ∃ (i : ℕ) (hn : i < d.faceNormals.length) (hv : i < d.faceValues.length),
      Dice.PhysicsDie.getValue d = some (d.faceValues.get ⟨i, hv⟩) ∧
      d.faceValues.get ⟨i, hv⟩ ∈ d.faceValues ∧
      (d.readBottom = false →
        ∀ (j : ℕ) (hj : j < d.faceNormals.length),
          (rotateByQuaternion (d.faceNormals.get ⟨j, hj⟩) d.quaternion).y ≤
          (rotateByQuaternion (d.faceNormals.get ⟨i, hn⟩) d.quaternion).y) ∧
      (d.readBottom = true →
        ∀ (j : ℕ) (hj : j < d.faceNormals.length),
          (rotateByQuaternion (d.faceNormals.get ⟨i, hn⟩) d.quaternion).y ≤
          (rotateByQuaternion (d.faceNormals.get ⟨j, hj⟩) d.quaternion).y) := by
  obtain ⟨p, hp, heq, hall⟩ :=
    getValueGo_none_spec (if d.readBottom then (-1 : ℝ) else 1) d.quaternion
      (Dice.PhysicsDie.valuePairs d.faceNormals d.faceValues)
      (d.faceValues.get? 0)
      (valuePairs_ne_nil d.faceNormals d.faceValues hne)
  obtain ⟨i, hn, hv, rfl⟩ :=
    valuePairs_mem_index d.faceNormals d.faceValues hlen p hp
  refine ⟨i, hn, hv, ?_, List.get_mem _ _ _, ?_, ?_⟩
  · unfold Dice.PhysicsDie.getValue
    exact heq
  · intro hrb j hj
    have hmem := valuePairs_index_mem d.faceNormals d.faceValues hlen j hj
      (hlen ▸ hj)
    have := hall _ hmem
    rw [hrb] at this
    simpa using this
  · intro hrb j hj
    have hmem := valuePairs_index_mem d.faceNormals d.faceValues hlen j hj
      (hlen ▸ hj)
    have := hall _ hmem
    rw [hrb] at this
    simp only [if_true] at this
    nlinarith [this]

/-- Witness for C7: a two-faced die (normals up and down, values 2 and 5)
with identity orientation. -/
theorem C7_getValue_witness :
    (({ position := ⟨0, 1/2, 0⟩, velocity := V3.zero,
        quaternion := ⟨1, 0, 0, 0⟩, angularVelocity := V3.zero,
        settled := true, settleCounter := 4, size := 1,
        vertices := [], faceNormals := [⟨0, 1, 0⟩, ⟨0, -1, 0⟩],
        faceValues := [2, 5], collisionRadius := 866/1000,
        readBottom := false, restHeight := 1/2 } :
        Dice.PhysicsDie ℕ).faceNormals ≠ []) ∧
    (({ position := ⟨0, 1/2, 0⟩, velocity := V3.zero,
        quaternion := ⟨1, 0, 0, 0⟩, angularVelocity := V3.zero,
        settled := true, settleCounter := 4, size := 1,
        vertices := [], faceNormals := [⟨0, 1, 0⟩, ⟨0, -1, 0⟩],
        faceValues := [2, 5], collisionRadius := 866/1000,
        readBottom := false, restHeight := 1/2 } :
        Dice.PhysicsDie ℕ).faceNormals.length = 2) ∧
    (∃ (i : ℕ) (hn : i < 2) (hv : i < 2),
      Dice.PhysicsDie.getValue
        ({ position := ⟨0, 1/2, 0⟩, velocity := V3.zero,
           quaternion := ⟨1, 0, 0, 0⟩, angularVelocity := V3.zero,
           settled := true, settleCounter := 4, size := 1,
           vertices := [], faceNormals := [⟨0, 1, 0⟩, ⟨0, -1, 0⟩],
           faceValues := [2, 5], collisionRadius := 866/1000,
           readBottom := false, restHeight := 1/2 } : Dice.PhysicsDie ℕ) =
        some (([2, 5] : List ℕ).get ⟨i, hv⟩)) := by
  refine ⟨by simp, rfl, ?_⟩
  obtain ⟨i, hn, hv, heq, -⟩ :=
    C7_getValue_is_declared_argmax
      ({ position := ⟨0, 1/2, 0⟩, velocity := V3.zero,
         quaternion := ⟨1, 0, 0, 0⟩, angularVelocity := V3.zero,
         settled := true, settleCounter := 4, size := 1,
         vertices := [], faceNormals := [⟨0, 1, 0⟩, ⟨0, -1, 0⟩],
         faceValues := [2, 5], collisionRadius := 866/1000,
         readBottom := false, restHeight := 1/2 } : Dice.PhysicsDie ℕ)
      (by simp) rfl
  exact ⟨i, hn, hv, heq⟩


/-- The left-wall block never leaves the centre left of `MIN_X + halfSize`
and touches neither `z` nor `y` nor the settling state. -/
theorem leftWallBlock_facts (b : Engine.RigidBody) :
    Engine.PHYSICS.MIN_X + Engine.D6.HALF_SIZE ≤
      (Engine.leftWallBlock b).position.x ∨
      (Engine.leftWallBlock b).position.x = b.position.x := by
  simp only [Engine.leftWallBlock]
  split_ifs <;> simp [Engine.PHYSICS.MIN_X, Engine.D6.HALF_SIZE, Engine.D6.SIZE]

/-- Lower x-bound after the left-wall block. -/
theorem leftWallBlock_lower (b : Engine.RigidBody) :
    Engine.PHYSICS.MIN_X + Engine.D6.HALF_SIZE ≤
      (Engine.leftWallBlock b).position.x := by
  simp only [Engine.leftWallBlock]
  split_ifs with h1 h2 <;>
    simp_all [Engine.PHYSICS.MIN_X, Engine.D6.HALF_SIZE, Engine.D6.SIZE] <;>
    linarith

/-- The left-wall block does not move the body along z. -/
theorem leftWallBlock_z (b : Engine.RigidBody) :
    (Engine.leftWallBlock b).position.z = b.position.z := by
  simp only [Engine.leftWallBlock]
  split_ifs <;> rfl

/-- Upper x-bound after the right-wall block. -/
theorem rightWallBlock_upper (b : Engine.RigidBody) :
    (Engine.rightWallBlock b).position.x ≤
      Engine.PHYSICS.MAX_X - Engine.D6.HALF_SIZE := by
  simp only [Engine.rightWallBlock]
  split_ifs with h1 h2 <;>
    simp_all [Engine.PHYSICS.MAX_X, Engine.D6.HALF_SIZE, Engine.D6.SIZE] <;>
    linarith

/-- The right-wall block preserves a lower x-bound. -/
theorem rightWallBlock_lower (b : Engine.RigidBody)
    (h : Engine.PHYSICS.MIN_X + Engine.D6.HALF_SIZE ≤ b.position.x) :
    Engine.PHYSICS.MIN_X + Engine.D6.HALF_SIZE ≤
      (Engine.rightWallBlock b).position.x := by
  simp only [Engine.rightWallBlock]
  split_ifs <;>
    simp_all [Engine.PHYSICS.MIN_X, Engine.PHYSICS.MAX_X,
      Engine.D6.HALF_SIZE, Engine.D6.SIZE] <;>
    linarith

/-- The right-wall block does not move the body along z. -/
theorem rightWallBlock_z (b : Engine.RigidBody) :
    (Engine.rightWallBlock b).position.z = b.position.z := by
  simp only [Engine.rightWallBlock]
  split_ifs <;> rfl

/-- Lower z-bound after the back-wall block. -/
theorem backWallBlock_lower (b : Engine.RigidBody) :
    Engine.PHYSICS.MIN_Z + Engine.D6.HALF_SIZE ≤
      (Engine.backWallBlock b).position.z := by
  simp only [Engine.backWallBlock]
  split_ifs <;>
    simp_all [Engine.PHYSICS.MIN_Z, Engine.D6.HALF_SIZE, Engine.D6.SIZE] <;>
    linarith

/-- The back-wall block does not move the body along x and keeps the
x-velocity. -/
theorem backWallBlock_x (b : Engine.RigidBody) :
    (Engine.backWallBlock b).position.x = b.position.x ∧
    (Engine.backWallBlock b).velocity.x = b.velocity.x := by
  simp only [Engine.backWallBlock]
  split_ifs <;> exact ⟨rfl, rfl⟩

/-- Upper z-bound after the front-wall block. -/
theorem frontWallBlock_upper (b : Engine.RigidBody) :
    (Engine.frontWallBlock b).position.z ≤
      Engine.PHYSICS.MAX_Z - Engine.D6.HALF_SIZE := by
  simp only [Engine.frontWallBlock]
  split_ifs <;>
    simp_all [Engine.PHYSICS.MAX_Z, Engine.D6.HALF_SIZE, Engine.D6.SIZE] <;>
    linarith

/-- The front-wall block preserves a lower z-bound. -/
theorem frontWallBlock_lower (b : Engine.RigidBody)
    (h : Engine.PHYSICS.MIN_Z + Engine.D6.HALF_SIZE ≤ b.position.z) :
    Engine.PHYSICS.MIN_Z + Engine.D6.HALF_SIZE ≤
      (Engine.frontWallBlock b).position.z := by
  simp only [Engine.frontWallBlock]
  split_ifs <;>
    simp_all [Engine.PHYSICS.MIN_Z, Engine.PHYSICS.MAX_Z,
      Engine.D6.HALF_SIZE, Engine.D6.SIZE] <;>
    linarith

/-- The front-wall block does not move the body along x and keeps the
x-velocity. -/
theorem frontWallBlock_x (b : Engine.RigidBody) :
    (Engine.frontWallBlock b).position.x = b.position.x ∧
    (Engine.frontWallBlock b).velocity.x = b.velocity.x := by
  simp only [Engine.frontWallBlock]
  split_ifs <;> exact ⟨rfl, rfl⟩

/-- After `resolveWallCollisions` the centre always lies within
`[MIN + halfSize, MAX - halfSize]` on both horizontal axes. -/
theorem resolveWall_bounds (b : Engine.RigidBody) :
    Engine.PHYSICS.MIN_X + Engine.D6.HALF_SIZE ≤
      (Engine.resolveWallCollisions b).position.x ∧
    (Engine.resolveWallCollisions b).position.x ≤
      Engine.PHYSICS.MAX_X - Engine.D6.HALF_SIZE ∧
    Engine.PHYSICS.MIN_Z + Engine.D6.HALF_SIZE ≤
      (Engine.resolveWallCollisions b).position.z ∧
    (Engine.resolveWallCollisions b).position.z ≤
      Engine.PHYSICS.MAX_Z - Engine.D6.HALF_SIZE := by
  unfold Engine.resolveWallCollisions
  set b1 := Engine.leftWallBlock b
  set b2 := Engine.rightWallBlock b1
  set b3 := Engine.backWallBlock b2
  have hx2a : Engine.PHYSICS.MIN_X + Engine.D6.HALF_SIZE ≤ b2.position.x :=
    rightWallBlock_lower b1 (leftWallBlock_lower b)
  have hx2b : b2.position.x ≤ Engine.PHYSICS.MAX_X - Engine.D6.HALF_SIZE :=
    rightWallBlock_upper b1
  have hx3 := backWallBlock_x b2
  have hx4 := frontWallBlock_x b3
  have hz3 : Engine.PHYSICS.MIN_Z + Engine.D6.HALF_SIZE ≤ b3.position.z :=
    backWallBlock_lower b2
  refine ⟨?_, ?_, ?_, ?_⟩
  · rw [hx4.1, hx3.1]; exact hx2a
  · rw [hx4.1, hx3.1]; exact hx2b
  · exact frontWallBlock_lower b3 hz3
  · exact frontWallBlock_upper b3

/-- `snapToGround` moves the body only vertically. -/
theorem snapToGround_xz (b : Engine.RigidBody) :
    (Engine.snapToGround b).position.x = b.position.x ∧
    (Engine.snapToGround b).position.z = b.position.z := by
  unfold Engine.snapToGround
  cases hmw : Engine.minWorldY b with
  | none => exact ⟨rfl, rfl⟩
  | some m =>
    dsimp only
    split_ifs <;> exact ⟨rfl, rfl⟩

/-- `checkSettling` moves the body only vertically. -/
theorem checkSettling_xz (b : Engine.RigidBody) (dt : ℝ) :
    (Engine.checkSettling b dt).position.x = b.position.x ∧
    (Engine.checkSettling b dt).position.z = b.position.z := by
  simp only [Engine.checkSettling]
  split_ifs with h1 h2
  · have := snapToGround_xz
      { b with settleTimer := b.settleTimer + dt,
               velocity := V3.zero, angularVelocity := V3.zero }
    exact ⟨this.1, this.2⟩
  · exact ⟨rfl, rfl⟩
  · exact ⟨rfl, rfl⟩

/-- One engine step keeps a body inside the claim's bound
(`|coordinate| ≤ bound + half-extent`). -/
theorem stepBody_in_bounds (dt : ℝ) (b : Engine.RigidBody)
    (hx : |b.position.x| ≤ Engine.PHYSICS.MAX_X + Engine.D6.HALF_SIZE)
    (hz : |b.position.z| ≤ Engine.PHYSICS.MAX_Z + Engine.D6.HALF_SIZE) :
    |(Engine.stepBody dt b).position.x| ≤
      Engine.PHYSICS.MAX_X + Engine.D6.HALF_SIZE ∧
    |(Engine.stepBody dt b).position.z| ≤
      Engine.PHYSICS.MAX_Z + Engine.D6.HALF_SIZE := by
  unfold Engine.stepBody
  by_cases hs : b.isSettled = true
  · rw [if_pos hs]
    exact ⟨hx, hz⟩
  · rw [if_neg hs]
    set bw := Engine.resolveWallCollisions
      (Engine.resolveGroundCollision (Engine.integrate b dt))
    have hb := resolveWall_bounds
      (Engine.resolveGroundCollision (Engine.integrate b dt))
    have hcs := checkSettling_xz bw dt
    constructor
    · rw [hcs.1]
      rw [abs_le]
      have h1 := hb.1
      have h2 := hb.2.1
      simp only [Engine.PHYSICS.MIN_X, Engine.PHYSICS.MAX_X,
        Engine.D6.HALF_SIZE, Engine.D6.SIZE] at h1 h2 ⊢
      constructor <;> linarith
    · rw [hcs.2]
      rw [abs_le]
      have h1 := hb.2.2.1
      have h2 := hb.2.2.2
      simp only [Engine.PHYSICS.MIN_Z, Engine.PHYSICS.MAX_Z,
        Engine.D6.HALF_SIZE, Engine.D6.SIZE] at h1 h2 ⊢
      constructor <;> linarith

/-- Outward x-velocity at the right wall is reflected and scaled by the
wall restitution. -/
theorem resolveWall_reflects_right (b : Engine.RigidBody)
    (h1 : ¬ b.position.x - Engine.D6.HALF_SIZE < Engine.PHYSICS.MIN_X)
    (h2 : b.position.x + Engine.D6.HALF_SIZE > Engine.PHYSICS.MAX_X)
    (h3 : b.velocity.x > 0) :
    (Engine.resolveWallCollisions b).velocity.x =
      -b.velocity.x * Engine.PHYSICS.WALL_RESTITUTION := by
  unfold Engine.resolveWallCollisions
  have hleft : Engine.leftWallBlock b = b := by
    simp only [Engine.leftWallBlock, if_neg h1]
  rw [hleft]
  have hright : (Engine.rightWallBlock b).velocity.x =
      -b.velocity.x * Engine.PHYSICS.WALL_RESTITUTION := by
    simp only [Engine.rightWallBlock, if_pos h2, if_pos h3]
  rw [(frontWallBlock_x _).2, (backWallBlock_x _).2, hright]

/-- The wall block of `PhysicsDie.update` keeps the centre within
`±bounds`, and when the centre had crossed a bound it is clamped exactly
onto it with the x-velocity reflected and scaled by the restitution. -/
theorem dieWallBlock_facts (d : Dice.PhysicsDie ℕ) :
    |(Dice.PhysicsDie.wallBlock d).position.x| ≤ Dice.bounds ∧
    |(Dice.PhysicsDie.wallBlock d).position.z| ≤ Dice.bounds ∧
    (|d.position.x| > Dice.bounds →
      (Dice.PhysicsDie.wallBlock d).position.x =
        Dice.PhysicsDie.sign d.position.x * Dice.bounds ∧
      (Dice.PhysicsDie.wallBlock d).velocity.x =
        -d.velocity.x * Dice.restitution) := by
  simp only [Dice.PhysicsDie.wallBlock]
  split_ifs with hx hz hz
  · refine ⟨?_, ?_, fun _ => ⟨rfl, rfl⟩⟩ <;>
      simp only [Dice.PhysicsDie.sign, Dice.bounds] <;>
      split_ifs <;> simp [abs_le] <;> norm_num
  · refine ⟨?_, ?_, fun _ => ⟨rfl, rfl⟩⟩
    · simp only [Dice.PhysicsDie.sign, Dice.bounds]
      split_ifs <;> simp [abs_le] <;> norm_num
    · simpa [Dice.bounds] using le_of_not_lt (by simpa [Dice.bounds] using hz)
  · refine ⟨?_, ?_, fun hcontra => absurd hcontra (by simpa [Dice.bounds] using hx)⟩
    · simpa [Dice.bounds] using le_of_not_lt (by simpa [Dice.bounds] using hx)
    · simp only [Dice.PhysicsDie.sign, Dice.bounds]
      split_ifs <;> simp [abs_le] <;> norm_num
  · refine ⟨?_, ?_, fun hcontra => absurd hcontra (by simpa [Dice.bounds] using hx)⟩
    · simpa [Dice.bounds] using le_of_not_lt (by simpa [Dice.bounds] using hx)
    · simpa [Dice.bounds] using le_of_not_lt (by simpa [Dice.bounds] using hz)

/-- `snapToFace` moves the die only vertically. -/
theorem snapToFace_xz (d : Dice.PhysicsDie ℕ) :
    (Dice.PhysicsDie.snapToFace d).position.x = d.position.x ∧
    (Dice.PhysicsDie.snapToFace d).position.z = d.position.z := by
  simp only [Dice.PhysicsDie.snapToFace]
  cases hb : (d.faceNormals.foldl
      (fun (st : ℝ × Option V3) normal =>
        let worldNormal := rotateByQuaternion normal d.quaternion
        let dot := V3.dot worldNormal ⟨0, 1, 0⟩
        if dot > st.1 then (dot, some normal) else st)
      (-1, none)).2 with
  | none => exact ⟨rfl, rfl⟩
  | some bestNormal =>
    dsimp only
    split_ifs <;> exact ⟨rfl, rfl⟩

/-- The settle check of `PhysicsDie.update` moves the die only
vertically. -/
theorem settleBlock_xz (d : Dice.PhysicsDie ℕ) (info : Dice.ContactInfo) :
    (Dice.PhysicsDie.settleBlock d info).position.x = d.position.x ∧
    (Dice.PhysicsDie.settleBlock d info).position.z = d.position.z := by
  simp only [Dice.PhysicsDie.settleBlock]
  split_ifs with h1 h2
  · have := snapToFace_xz { d with settleCounter := d.settleCounter + 1, settled := true }
    exact ⟨this.1, this.2⟩
  · exact ⟨rfl, rfl⟩
  · exact ⟨rfl, rfl⟩

/-- One `PhysicsDie.update` keeps the centre within `±bounds` on both
horizontal axes. -/
theorem dieUpdate_in_bounds (dt : ℝ) (d : Dice.PhysicsDie ℕ)
    (hx : |d.position.x| ≤ Dice.bounds) (hz : |d.position.z| ≤ Dice.bounds) :
    |(Dice.PhysicsDie.update dt d).position.x| ≤ Dice.bounds ∧
    |(Dice.PhysicsDie.update dt d).position.z| ≤ Dice.bounds := by
  unfold Dice.PhysicsDie.update
  by_cases hs : d.settled = true
  · rw [if_pos hs]
    exact ⟨hx, hz⟩
  · rw [if_neg hs]
    set dw := Dice.PhysicsDie.wallBlock
      (Dice.PhysicsDie.groundBlock (Dice.PhysicsDie.integrateBlock d dt) dt).1
    have hwf := dieWallBlock_facts
      (Dice.PhysicsDie.groundBlock (Dice.PhysicsDie.integrateBlock d dt) dt).1
    have hsb := settleBlock_xz dw
      (Dice.PhysicsDie.groundBlock (Dice.PhysicsDie.integrateBlock d dt) dt).2
    exact ⟨by rw [hsb.1]; exact hwf.1, by rw [hsb.2]; exact hwf.2.1⟩

/-- C8.  Wall containment, in both variants.  After wall resolution the
body's centre never exceeds the configured x/z bounds plus the body's
half-extent (the engine in fact keeps the centre within bound minus
half-extent, PhysicsDie clamps the centre exactly onto the bound), this
containment is preserved by any number of physics steps, and an
outward-moving velocity component at a crossed bound is reflected scaled
by the wall restitution coefficient. -/
theorem C8_wall_containment :
    (∀ b : Engine.RigidBody,
      |(Engine.resolveWallCollisions b).position.x| ≤
        Engine.PHYSICS.MAX_X + Engine.D6.HALF_SIZE ∧
      |(Engine.resolveWallCollisions b).position.z| ≤
        Engine.PHYSICS.MAX_Z + Engine.D6.HALF_SIZE) ∧
    (∀ (dt : ℝ) (b : Engine.RigidBody) (n : ℕ),
      |b.position.x| ≤ Engine.PHYSICS.MAX_X + Engine.D6.HALF_SIZE →
      |b.position.z| ≤ Engine.PHYSICS.MAX_Z + Engine.D6.HALF_SIZE →
      |((Engine.stepBody dt)^[n] b).position.x| ≤
        Engine.PHYSICS.MAX_X + Engine.D6.HALF_SIZE ∧
      |((Engine.stepBody dt)^[n] b).position.z| ≤
        Engine.PHYSICS.MAX_Z + Engine.D6.HALF_SIZE) ∧
    (∀ b : Engine.RigidBody,
      ¬ b.position.x - Engine.D6.HALF_SIZE < Engine.PHYSICS.MIN_X →
      b.position.x + Engine.D6.HALF_SIZE > Engine.PHYSICS.MAX_X →
      b.velocity.x > 0 →
      (Engine.resolveWallCollisions b).velocity.x =
        -b.velocity.x * Engine.PHYSICS.WALL_RESTITUTION) ∧
    (∀ d : Dice.PhysicsDie ℕ,
      |(Dice.PhysicsDie.wallBlock d).position.x| ≤ Dice.bounds ∧
      |(Dice.PhysicsDie.wallBlock d).position.z| ≤ Dice.bounds ∧
      (|d.position.x| > Dice.bounds →
        (Dice.PhysicsDie.wallBlock d).position.x =
          Dice.PhysicsDie.sign d.position.x * Dice.bounds ∧
        (Dice.PhysicsDie.wallBlock d).velocity.x =
          -d.velocity.x * Dice.restitution)) ∧
    (∀ (dt : ℝ) (d : Dice.PhysicsDie ℕ) (n : ℕ),
      |d.position.x| ≤ Dice.bounds → |d.position.z| ≤ Dice.bounds →
      |((Dice.PhysicsDie.update dt)^[n] d).position.x| ≤ Dice.bounds ∧
      |((Dice.PhysicsDie.update dt)^[n] d).position.z| ≤ Dice.bounds) := by
  refine ⟨?_, ?_, resolveWall_reflects_right, dieWallBlock_facts, ?_⟩
  · intro b
    have h := resolveWall_bounds b
    constructor
    · rw [abs_le]
      simp only [Engine.PHYSICS.MIN_X, Engine.PHYSICS.MAX_X,
        Engine.D6.HALF_SIZE, Engine.D6.SIZE] at h ⊢
      constructor <;> linarith [h.1, h.2.1]
    · rw [abs_le]
      simp only [Engine.PHYSICS.MIN_Z, Engine.PHYSICS.MAX_Z,
        Engine.D6.HALF_SIZE, Engine.D6.SIZE] at h ⊢
      constructor <;> linarith [h.2.2.1, h.2.2.2]
  · intro dt b n
    induction n generalizing b with
    | zero => intro hx hz; exact ⟨hx, hz⟩
    | succ k ih =>
      intro hx hz
      rw [Function.iterate_succ_apply]
      have h1 := stepBody_in_bounds dt b hx hz
      exact ih (Engine.stepBody dt b) h1.1 h1.2
  · intro dt d n
    induction n generalizing d with
    | zero => intro hx hz; exact ⟨hx, hz⟩
    | succ k ih =>
      intro hx hz
      rw [Function.iterate_succ_apply]
      have h1 := dieUpdate_in_bounds dt d hx hz
      exact ih (Dice.PhysicsDie.update dt d) h1.1 h1.2

/-- Witness for C8: a body beyond the right wall moving outward is clamped
and its velocity reflected; iterating from the in-bounds `movingBody` and
`counterDie` keeps them contained. -/
theorem C8_wall_containment_witness :
    (¬ ((4210:ℝ)/1000) - Engine.D6.HALF_SIZE < Engine.PHYSICS.MIN_X) ∧
    ((4210:ℝ)/1000) + Engine.D6.HALF_SIZE > Engine.PHYSICS.MAX_X ∧
    ((2:ℝ) > 0) ∧
    (Engine.resolveWallCollisions
      { position := ⟨4210/1000, 1, 0⟩, quaternion := ⟨1, 0, 0, 0⟩,
        velocity := ⟨2, -1, 0⟩, angularVelocity := V3.zero,
        mass := 1, inverseMass := 1, inertia := 1/6, inverseInertia := 6,
        force := V3.zero, torque := V3.zero,
        localVertices := Engine.D6_VERTICES, settleTimer := 0,
        isSettled := false, collisionRadius := 866/1000,
        halfSize := 1/2 }).velocity.x = -2 * Engine.PHYSICS.WALL_RESTITUTION ∧
    (|movingBody.position.x| ≤ Engine.PHYSICS.MAX_X + Engine.D6.HALF_SIZE) ∧
    (|((Engine.stepBody (1/240))^[3] movingBody).position.x| ≤
      Engine.PHYSICS.MAX_X + Engine.D6.HALF_SIZE) ∧
    (|((Dice.PhysicsDie.update (1/120))^[3] counterDie).position.x| ≤ Dice.bounds) := by
  have hc := C8_wall_containment
  have h1 : ¬ ((4210:ℝ)/1000) - Engine.D6.HALF_SIZE < Engine.PHYSICS.MIN_X := by
    norm_num [Engine.D6.HALF_SIZE, Engine.D6.SIZE, Engine.PHYSICS.MIN_X]
  have h2 : ((4210:ℝ)/1000) + Engine.D6.HALF_SIZE > Engine.PHYSICS.MAX_X := by
    norm_num [Engine.D6.HALF_SIZE, Engine.D6.SIZE, Engine.PHYSICS.MAX_X]
  have hmx : |movingBody.position.x| ≤
      Engine.PHYSICS.MAX_X + Engine.D6.HALF_SIZE := by
    norm_num [movingBody, Engine.PHYSICS.MAX_X, Engine.D6.HALF_SIZE, Engine.D6.SIZE]
  have hmz : |movingBody.position.z| ≤
      Engine.PHYSICS.MAX_Z + Engine.D6.HALF_SIZE := by
    norm_num [movingBody, Engine.PHYSICS.MAX_Z, Engine.D6.HALF_SIZE, Engine.D6.SIZE]
  have hdx : |counterDie.position.x| ≤ Dice.bounds := by
    norm_num [counterDie, Dice.bounds]
  have hdz : |counterDie.position.z| ≤ Dice.bounds := by
    norm_num [counterDie, Dice.bounds]
  refine ⟨h1, h2, by norm_num, ?_, hmx, ?_, ?_⟩
  · exact hc.2.2.1 _ h1 h2 (by norm_num)
  · exact (hc.2.1 (1/240) movingBody 3 hmx hmz).1
  · exact (hc.2.2.2.2 (1/120) counterDie 3 hdx hdz).1

/-- The integration block never touches the settled flag. -/
theorem integrateBlock_settled {α : Type} (d : Dice.PhysicsDie α) (dt : ℝ) :
    (Dice.PhysicsDie.integrateBlock d dt).settled = d.settled := by
  simp only [Dice.PhysicsDie.integrateBlock, Dice.PhysicsDie.applyDamping]
  split_ifs <;> rfl

/-- The gravity-torque helper never touches the settled flag. -/
theorem applyGravityTorque_settled {α : Type} (d : Dice.PhysicsDie α)
    (dt : ℝ) (info : Dice.ContactInfo) :
    (Dice.PhysicsDie.applyGravityTorque d dt info).settled = d.settled := by
  unfold Dice.PhysicsDie.applyGravityTorque
  split_ifs
  · cases info.lowestVertex <;> rfl
  · rfl

/-- The ground block never touches the settled flag. -/
theorem groundBlock_settled {α : Type} (d : Dice.PhysicsDie α) (dt : ℝ) :
    (Dice.PhysicsDie.groundBlock d dt).1.settled = d.settled := by
  simp only [Dice.PhysicsDie.groundBlock]
  split_ifs with h1 h2
  · rw [applyGravityTorque_settled]
  · rw [applyGravityTorque_settled]
  · rfl

/-- The wall block never touches the settled flag. -/
theorem wallBlock_settled {α : Type} (d : Dice.PhysicsDie α) :
    (Dice.PhysicsDie.wallBlock d).settled = d.settled := by
  simp only [Dice.PhysicsDie.wallBlock]
  split_ifs <;> rfl

/-- `snapToFace` never touches the settled flag. -/
theorem snapToFace_settled {α : Type} (d : Dice.PhysicsDie α) :
    (Dice.PhysicsDie.snapToFace d).settled = d.settled := by
  simp only [Dice.PhysicsDie.snapToFace]
  cases hb : (d.faceNormals.foldl
      (fun (st : ℝ × Option V3) normal =>
        let worldNormal := rotateByQuaternion normal d.quaternion
        let dot := V3.dot worldNormal ⟨0, 1, 0⟩
        if dot > st.1 then (dot, some normal) else st)
      (-1, none)).2 with
  | none => rfl
  | some bestNormal =>
    dsimp only
    split_ifs <;> rfl

/-- C10.  In the `PhysicsDie` variant a die can become settled during an
update only if, at the settle check of that same step (after integration,
ground and wall resolution), its speed and angular speed are below the
settle thresholds, some face normal's world alignment with up exceeds the
flatness threshold 0.99, its lowest world vertex is within 0.01 of the
ground plane, and its settle counter has exceeded the required frames —
so a die in mid-air, or balanced on an edge or corner, is never marked
settled. -/
theorem C10_settles_only_flat_on_ground {α : Type}
    (dt : ℝ) (d : Dice.PhysicsDie α)
    (h : (Dice.PhysicsDie.update dt d).settled = true) :
    d.settled = true ∨
    ((Dice.PhysicsDie.wallBlock
        (Dice.PhysicsDie.groundBlock
          (Dice.PhysicsDie.integrateBlock d dt) dt).1).velocity.length <
        Dice.settleSpeedThreshold ∧
     (Dice.PhysicsDie.wallBlock
        (Dice.PhysicsDie.groundBlock
          (Dice.PhysicsDie.integrateBlock d dt) dt).1).angularVelocity.length <
        Dice.settleAngSpeedThreshold ∧
     Dice.PhysicsDie.getFlatness
        (Dice.PhysicsDie.wallBlock
          (Dice.PhysicsDie.groundBlock
            (Dice.PhysicsDie.integrateBlock d dt) dt).1) >
        Dice.settleFlatnessThreshold ∧
     (Dice.PhysicsDie.groundBlock
        (Dice.PhysicsDie.integrateBlock d dt) dt).2.isOnGround ∧
     (Dice.PhysicsDie.wallBlock
        (Dice.PhysicsDie.groundBlock
          (Dice.PhysicsDie.integrateBlock d dt) dt).1).settleCounter + 1 >
        Dice.settleFramesRequired) := by
  by_cases hs : d.settled = true
  · exact Or.inl hs
  · right
    rw [Dice.PhysicsDie.update, if_neg hs] at h
    set d2 := Dice.PhysicsDie.wallBlock
      (Dice.PhysicsDie.groundBlock (Dice.PhysicsDie.integrateBlock d dt) dt).1 with hd2
    set info := (Dice.PhysicsDie.groundBlock
      (Dice.PhysicsDie.integrateBlock d dt) dt).2 with hinfo
    have hd2s : d2.settled = d.settled := by
      rw [hd2, wallBlock_settled, groundBlock_settled, integrateBlock_settled]
    by_cases hcond : d2.velocity.length < Dice.settleSpeedThreshold ∧
        d2.angularVelocity.length < Dice.settleAngSpeedThreshold ∧
        Dice.PhysicsDie.getFlatness d2 > Dice.settleFlatnessThreshold ∧
        info.isOnGround
    · by_cases hcnt : ({ d2 with settleCounter := d2.settleCounter + 1 } :
          Dice.PhysicsDie α).settleCounter > Dice.settleFramesRequired
      · exact ⟨hcond.1, hcond.2.1, hcond.2.2.1, hcond.2.2.2, hcnt⟩
      · exfalso
        rw [Dice.PhysicsDie.settleBlock, if_pos hcond, if_neg hcnt] at h
        rw [show ({ d2 with settleCounter := d2.settleCounter + 1 } :
          Dice.PhysicsDie α).settled = d2.settled from rfl, hd2s] at h
        exact hs h
    · exfalso
      rw [Dice.PhysicsDie.settleBlock, if_neg hcond] at h
      rw [show ({ d2 with settleCounter := max 0 (d2.settleCounter - 1) } :
        Dice.PhysicsDie α).settled = d2.settled from rfl, hd2s] at h
      exact hs h

/-- Witness for C10 at a settled die (the update returns it unchanged, so
the hypothesis holds and the left disjunct applies). -/
theorem C10_settles_witness :
    (Dice.PhysicsDie.update (1/240) dieSettledA).settled = true ∧
    (dieSettledA.settled = true ∨
     ((Dice.PhysicsDie.wallBlock
        (Dice.PhysicsDie.groundBlock
          (Dice.PhysicsDie.integrateBlock dieSettledA (1/240)) (1/240)).1).velocity.length <
        Dice.settleSpeedThreshold ∧
      (Dice.PhysicsDie.wallBlock
        (Dice.PhysicsDie.groundBlock
          (Dice.PhysicsDie.integrateBlock dieSettledA (1/240)) (1/240)).1).angularVelocity.length <
        Dice.settleAngSpeedThreshold ∧
      Dice.PhysicsDie.getFlatness
        (Dice.PhysicsDie.wallBlock
          (Dice.PhysicsDie.groundBlock
            (Dice.PhysicsDie.integrateBlock dieSettledA (1/240)) (1/240)).1) >
        Dice.settleFlatnessThreshold ∧
      (Dice.PhysicsDie.groundBlock
        (Dice.PhysicsDie.integrateBlock dieSettledA (1/240)) (1/240)).2.isOnGround ∧
      (Dice.PhysicsDie.wallBlock
        (Dice.PhysicsDie.groundBlock
          (Dice.PhysicsDie.integrateBlock dieSettledA (1/240)) (1/240)).1).settleCounter + 1 >
        Dice.settleFramesRequired)) := by
  have hupd : (Dice.PhysicsDie.update (1/240) dieSettledA).settled = true := by
    rw [Dice.PhysicsDie.update,
      if_pos (show dieSettledA.settled = true by rfl)]
    rfl
  exact ⟨hupd, C10_settles_only_flat_on_ground (1/240) dieSettledA hupd⟩
